import Mathlib

/-!
Verification of the sentinel intelligence fusion and risk analytics engine.

This file gives a shallow embedding, over `ℚ`, of the analytics core:
`RiskScoringEngine` (backend/services/analytics/risk_engine.py),
`AttackPathAnalyzer` (backend/services/analytics/attack_paths.py),
`ConfidenceScorer` and `MultiINTCorrelator` (backend/services/fusion/correlator.py),
and `PredictiveAnalytics` (backend/services/analytics/predictor.py),
and proves properties of the embedded functions.

Modelling conventions, used throughout:
* Python floats are modelled as rationals (`ℚ`); `round(x, n)` is modelled as
  round-half-to-even on exact rationals (`pyRound`).
* Python `datetime` values are modelled as rational time coordinates (days for
  the risk engine, hours for the correlator); `datetime.now()` becomes an
  explicit `now` parameter.
* Python dicts with a fixed key set become structures; a key that may be
  absent (or `None`) becomes an `Option` field, and `d.get(k, default)`
  becomes `Option.getD`.
* Purely presentational output strings that interpolate formatted floats
  (`expected_range`, `description`, `analysis`) and wall-clock fields
  (`calculated_at`, `analyzed_at`) are omitted from result structures.
-/

/-! ### Generic helpers: Python-style primitives -/

/-- ASCII lower-casing of one character, as `str.lower` acts on ASCII data. -/
def lowerChar (c : Char) : Char :=
  if 'A' ≤ c ∧ c ≤ 'Z' then Char.ofNat (c.toNat + 32) else c

/-- ASCII lower-casing of a string; models Python `str.lower()` on the ASCII
inputs the engine uses for its lookup keys. -/
def asciiLower (s : String) : String := ⟨s.data.map lowerChar⟩

/-- Round-half-to-even to an integer, the tie-breaking rule of Python's
built-in `round`. -/
def rhe (q : ℚ) : ℤ :=
  if q - ⌊q⌋ = 1/2 then (if ⌊q⌋ % 2 = 0 then ⌊q⌋ else ⌊q⌋ + 1) else round q

/-- Python `round(q, n)`: round half to even at `n` decimal digits. -/
def pyRound (q : ℚ) (n : ℕ) : ℚ := (rhe (q * 10 ^ n) : ℚ) / 10 ^ n

/-- Python `int(q)` for a rational: truncation toward zero. -/
def pyInt (q : ℚ) : ℤ := q.num / (q.den : ℤ)

/-- Sub-list (contiguous) test: `needle` occurs inside `hay`; models the
Python substring operator `in` on the underlying character data. -/
def isSubList (needle : List Char) : List Char → Bool
  | [] => needle.isEmpty
  | c :: rest => needle.isPrefixOf (c :: rest) || isSubList needle rest

/-- Python `needle in hay` on strings. -/
def strContains (hay needle : String) : Bool := isSubList needle.data hay.data

/-- Python `statistics.mean` (total on `[]`; the engine never calls it on an
empty series except on the path noted at its use site). -/
def pyMean (xs : List ℚ) : ℚ := xs.sum / xs.length

/-- Sample variance, the square of Python `statistics.stdev`. -/
def sampleVariance (xs : List ℚ) : ℚ :=
  (xs.map (fun x => (x - pyMean xs) ^ 2)).sum / ((xs.length : ℚ) - 1)

/-! ### RiskScoringEngine (backend/services/analytics/risk_engine.py)

An `Asset` snapshot: the fields of the asset dict read by the engine. -/

structure Asset where
  id : Option String
  value : Option String
  criticality : Option String
  tags : List String
deriving DecidableEq

/-- A `Vulnerability` snapshot; `published_date` is a time coordinate in days. -/
structure Vulnerability where
  id : Option String
  cvss_score : Option ℚ
  exploit_status : Option String
  patch_available : Bool
  published_date : Option ℚ
deriving DecidableEq

/-- Caller-supplied threat context; absent keys are falsy, hence `Bool`/`ℕ`
fields with `false`/`0` for the missing case. -/
structure ThreatContext where
  active_exploitation : Bool := false
  targeted_campaign : Bool := false
  apt_linked : Bool := false
  threat_mentions : ℕ := 0
  targeting_organization : Bool := false
  targeting_industry : Bool := false
  targeting_region : Bool := false
deriving DecidableEq

/-- The `RiskFactors` dataclass. -/
structure RiskFactors where
  cvss_score : ℚ := 0
  threat_intel_factor : ℚ := 1
  exploit_factor : ℚ := 1
  asset_criticality_factor : ℚ := 1
  exposure_factor : ℚ := 1
  age_factor : ℚ := 1
  active_targeting_factor : ℚ := 1
deriving DecidableEq

/-- `RiskScoringEngine.SEVERITY_THRESHOLDS`. -/
def SEVERITY_THRESHOLDS (k : String) : ℚ :=
  if k = "critical" then 9 else
  if k = "high" then 7 else
  if k = "medium" then 4 else 0

/-- `RiskScoringEngine.ASSET_CRITICALITY`, with the `.get(_, 1.0)` default. -/
def ASSET_CRITICALITY (k : String) : ℚ :=
  if k = "critical" then 1.5 else
  if k = "high" then 1.3 else
  if k = "medium" then 1 else
  if k = "low" then 0.7 else
  if k = "unknown" then 1 else 1

/-- `RiskScoringEngine.EXPLOIT_AVAILABILITY`, with the `.get(_, 1.2)` default. -/
def EXPLOIT_AVAILABILITY (k : String) : ℚ :=
  if k = "weaponized" then 2 else
  if k = "poc" then 1.5 else
  if k = "theoretical" then 1 else
  if k = "unknown" then 1.2 else 1.2

/-- `RiskScoringEngine.THREAT_INTEL_WEIGHTS`. -/
def THREAT_INTEL_WEIGHTS (k : String) : ℚ :=
  if k = "active_exploitation" then 2.5 else
  if k = "targeted_campaign" then 2 else
  if k = "apt_linked" then 1.8 else
  if k = "threat_mentioned" then 1.3 else 1

/-- `RiskScoringEngine._calculate_threat_factor`. -/
def calculate_threat_factor (tc : ThreatContext) : ℚ :=
  if tc.active_exploitation then THREAT_INTEL_WEIGHTS "active_exploitation"
  else if tc.targeted_campaign then THREAT_INTEL_WEIGHTS "targeted_campaign"
  else if tc.apt_linked then THREAT_INTEL_WEIGHTS "apt_linked"
  else if tc.threat_mentions > 0 then THREAT_INTEL_WEIGHTS "threat_mentioned"
  else THREAT_INTEL_WEIGHTS "no_intel"

/-- `RiskScoringEngine._calculate_targeting_factor`. -/
def calculate_targeting_factor (tc : ThreatContext) : ℚ :=
  if tc.targeting_organization then 2
  else if tc.targeting_industry then 1.5
  else if tc.targeting_region then 1.3
  else 1

/-- `RiskScoringEngine._calculate_exposure_factor`. -/
def calculate_exposure_factor (asset : Asset) : ℚ :=
  if "internet-facing" ∈ asset.tags ∨ "public" ∈ asset.tags then 1.5
  else if "dmz" ∈ asset.tags then 1.3
  else if "internal" ∈ asset.tags then 1
  else 1.2

/-- `RiskScoringEngine._calculate_age_factor`; `now` models `datetime.now()`,
`(now - pub).days` is the floor of the rational day difference.  The
string-parsing failure path of the source collapses into the `none` default. -/
def calculate_age_factor (vuln : Vulnerability) (now : ℚ) : ℚ :=
  match vuln.published_date with
  | none => 1
  | some pub =>
    let age_days : ℤ := ⌊now - pub⌋
    if age_days < 7 then 1.4
    else if age_days < 30 then 1.2
    else if age_days < 90 then 1
    else if age_days < 365 then 0.9
    else 0.8

/-- `RiskScoringEngine._compute_final_score`: multiplicative model capped at 10. -/
def compute_final_score (f : RiskFactors) : ℚ :=
  min (f.cvss_score * f.asset_criticality_factor * f.exploit_factor *
    f.threat_intel_factor * f.exposure_factor * f.age_factor *
    f.active_targeting_factor) 10

/-- `RiskScoringEngine._get_severity`. -/
def get_severity (risk_score : ℚ) : String :=
  if risk_score ≥ SEVERITY_THRESHOLDS "critical" then "critical"
  else if risk_score ≥ SEVERITY_THRESHOLDS "high" then "high"
  else if risk_score ≥ SEVERITY_THRESHOLDS "medium" then "medium"
  else "low"

/-- `RiskScoringEngine._calculate_priority`. -/
def calculate_priority (risk_score : ℚ) (f : RiskFactors) : String :=
  if risk_score ≥ 9 ∨ f.threat_intel_factor ≥ 2.5 then "urgent"
  else if risk_score ≥ 7 then "high"
  else if risk_score ≥ 4 then "medium"
  else "low"

/-- `RiskScoringEngine._generate_recommendations`. -/
def generate_recommendations (risk_score : ℚ) (f : RiskFactors)
    (vuln : Vulnerability) : List String :=
  (if f.threat_intel_factor ≥ 2.5 then
    ["🚨 URGENT: Active exploitation detected - patch immediately"] else []) ++
  (if f.active_targeting_factor ≥ 2 then
    ["⚠️ WARNING: Your organization is being actively targeted"] else []) ++
  (if f.exploit_factor ≥ 2 then
    ["Public exploit code available - prioritize patching"]
   else if f.exploit_factor ≥ 1.5 then
    ["Proof of concept exploit exists - monitor closely"] else []) ++
  (if f.asset_criticality_factor ≥ 1.5 then
    ["Critical asset affected - consider emergency patching"] else []) ++
  (if f.exposure_factor ≥ 1.5 then
    ["Internet-facing asset - consider firewall rules or WAF"] else []) ++
  (if f.age_factor ≥ 1.4 then
    ["Recent vulnerability - patches may be limited"] else []) ++
  (if risk_score ≥ 9 then ["Patch within 24 hours"]
   else if risk_score ≥ 7 then ["Patch within 7 days"]
   else if risk_score ≥ 4 then ["Patch within 30 days"] else []) ++
  (if vuln.patch_available then ["✅ Patch available - apply immediately"]
   else ["⚠️ No patch available - implement compensating controls"])

/-- The risk-assessment dict returned by `calculate_risk_score`
(`calculated_at` omitted; the `factors` sub-dict is the `RiskFactors` record). -/
structure RiskAssessment where
  risk_score : ℚ
  severity : String
  factors : RiskFactors
  recommendations : List String
  priority : String
deriving DecidableEq

/-- `RiskScoringEngine.calculate_risk_score`. -/
def calculate_risk_score (asset : Asset) (vuln : Vulnerability)
    (threat_context : Option ThreatContext) (now : ℚ) : RiskAssessment :=
  let f0 : RiskFactors := {}
  let f1 := { f0 with
    cvss_score := vuln.cvss_score.getD 0,
    asset_criticality_factor :=
      ASSET_CRITICALITY (asciiLower ((asset.criticality).getD "medium")),
    exploit_factor :=
      EXPLOIT_AVAILABILITY (asciiLower ((vuln.exploit_status).getD "unknown")) }
  let f2 := match threat_context with
    | none => f1
    | some tc => { f1 with
        threat_intel_factor := calculate_threat_factor tc,
        active_targeting_factor := calculate_targeting_factor tc }
  let factors := { f2 with
    exposure_factor := calculate_exposure_factor asset,
    age_factor := calculate_age_factor vuln now }
  let risk_score := compute_final_score factors
  { risk_score := pyRound risk_score 2,
    severity := get_severity risk_score,
    factors := factors,
    recommendations := generate_recommendations risk_score factors vuln,
    priority := calculate_priority risk_score factors }

/-- Per-vulnerability assessments of `calculate_asset_risk_profile`: the
enumerated loop pairing `vulnerabilities[idx]` with `threat_contexts[idx]`
(`none` when the index is out of range, as in the source's bounds check). -/
def assessLoop (asset : Asset) (ctxs : List (Option ThreatContext)) (now : ℚ) :
    List Vulnerability → ℕ → List RiskAssessment
  | [], _ => []
  | v :: rest, idx =>
    calculate_risk_score asset v (if h : idx < ctxs.length then ctxs[idx] else none) now ::
      assessLoop asset ctxs now rest (idx + 1)

/-- The asset-profile dict.  In the empty-vulnerability branch the source dict
carries only `asset_id`, `overall_risk`, `severity` and the five counts; the
remaining keys are modelled as `none` / `[]` / `false` there. -/
structure AssetRiskProfile where
  asset_id : Option String
  asset_value : Option String
  overall_risk : ℚ
  severity : String
  vulnerability_count : ℕ
  critical_count : ℕ
  high_count : ℕ
  medium_count : ℕ
  low_count : ℕ
  top_risks : List RiskAssessment
  urgent_actions_required : Bool
deriving DecidableEq

/-- The top-weighted combination of `calculate_asset_risk_profile`: scores
sorted descending, weighted 0.5/0.3/0.2 (three or more), 0.6/0.4 (two), the
single score (one).  The `[]` case is unreachable behind the source's
empty-list guard. -/
def overallRiskOf (risk_scores : List ℚ) : ℚ :=
  match risk_scores.mergeSort (fun a b => decide (b ≤ a)) with
  | a :: b :: c :: _ => a * 0.5 + b * 0.3 + c * 0.2
  | [a, b] => a * 0.6 + b * 0.4
  | [a] => a
  | [] => 0

/-- `RiskScoringEngine.calculate_asset_risk_profile`.  The incrementally built
`severity_counts` dict becomes one `countP` per severity label. -/
def calculate_asset_risk_profile (asset : Asset) (vulns : List Vulnerability)
    (ctxs : List (Option ThreatContext)) (now : ℚ) : AssetRiskProfile :=
  if vulns.isEmpty then
    { asset_id := asset.id, asset_value := none, overall_risk := 0,
      severity := "none", vulnerability_count := 0,
      critical_count := 0, high_count := 0, medium_count := 0, low_count := 0,
      top_risks := [], urgent_actions_required := false }
  else
    let risk_assessments := assessLoop asset ctxs now vulns 0
    let risk_scores := risk_assessments.map (·.risk_score)
    let overall_risk := overallRiskOf risk_scores
    { asset_id := asset.id, asset_value := asset.value,
      overall_risk := pyRound overall_risk 2,
      severity := get_severity overall_risk,
      vulnerability_count := vulns.length,
      critical_count := risk_assessments.countP (fun r => r.severity = "critical"),
      high_count := risk_assessments.countP (fun r => r.severity = "high"),
      medium_count := risk_assessments.countP (fun r => r.severity = "medium"),
      low_count := risk_assessments.countP (fun r => r.severity = "low"),
      top_risks :=
        (risk_assessments.mergeSort (fun a b => decide (b.risk_score ≤ a.risk_score))).take 5,
      urgent_actions_required :=
        risk_assessments.countP (fun r => r.severity = "critical") > 0 ∨
          risk_assessments.any (fun r => r.priority = "urgent") }

/-- Entry of the `top_risky_assets` list of the organization summary. -/
structure TopRiskyAsset where
  asset_id : Option String
  asset_value : Option String
  risk_score : ℚ
  vulnerability_count : ℕ
deriving DecidableEq

/-- The organization-posture dict.  In the empty-profile branch the source dict
carries only `overall_risk`, `total_assets`, `total_vulnerabilities` and an
empty `risk_distribution`; the missing keys are modelled as `none` / `0` /
`[]` / `false` there. -/
structure OrganizationRisk where
  overall_risk : ℚ
  severity : Option String
  total_assets : ℕ
  total_vulnerabilities : ℕ
  critical_assets : ℕ
  high_risk_assets : ℕ
  medium_risk_assets : ℕ
  low_risk_assets : ℕ
  top_risky_assets : List TopRiskyAsset
  urgent_actions_required : Bool
deriving DecidableEq

/-- `RiskScoringEngine.calculate_organization_risk`. -/
def calculate_organization_risk (asset_profiles : List AssetRiskProfile) :
    OrganizationRisk :=
  if asset_profiles.isEmpty then
    { overall_risk := 0, severity := none, total_assets := 0,
      total_vulnerabilities := 0, critical_assets := 0, high_risk_assets := 0,
      medium_risk_assets := 0, low_risk_assets := 0, top_risky_assets := [],
      urgent_actions_required := false }
  else
    let critical := asset_profiles.countP (fun p => p.severity = "critical")
    let org_risk := (asset_profiles.map (·.overall_risk)).sum / asset_profiles.length
    { overall_risk := pyRound org_risk 2,
      severity := some (get_severity org_risk),
      total_assets := asset_profiles.length,
      total_vulnerabilities := (asset_profiles.map (·.vulnerability_count)).sum,
      critical_assets := critical,
      high_risk_assets := asset_profiles.countP (fun p => p.severity = "high"),
      medium_risk_assets := asset_profiles.countP (fun p => p.severity = "medium"),
      low_risk_assets := asset_profiles.countP (fun p => p.severity = "low"),
      top_risky_assets :=
        ((asset_profiles.mergeSort (fun a b => decide (b.overall_risk ≤ a.overall_risk))).take 10).map
          (fun a => { asset_id := a.asset_id, asset_value := a.asset_value,
                      risk_score := a.overall_risk,
                      vulnerability_count := a.vulnerability_count }),
      urgent_actions_required := critical > 0 }

/-! ### AttackPathAnalyzer (backend/services/analytics/attack_paths.py) -/

/-- A node dict of an attack path, as read by the analyzer. -/
structure PathNode where
  id : Option String
  ntype : Option String
  value : Option String
  criticality : Option String
  tags : List String
deriving DecidableEq

/-- `AttackPathAnalyzer.EXPLOIT_DIFFICULTY`, with the `.get(_, 5.0)` default
(no lower-casing at this lookup site, matching the source). -/
def EXPLOIT_DIFFICULTY (k : String) : ℚ :=
  if k = "weaponized" then 1 else
  if k = "poc" then 3 else
  if k = "theoretical" then 7 else
  if k = "unknown" then 5 else 5

/-- `AttackPathAnalyzer.ASSET_IMPACT`, with the `.get(_, 5.0)` default. -/
def ASSET_IMPACT (k : String) : ℚ :=
  if k = "critical" then 10 else
  if k = "high" then 7 else
  if k = "medium" then 5 else
  if k = "low" then 3 else
  if k = "unknown" then 5 else 5

/-- Average exploit difficulty over the path's vulnerabilities. -/
def avgExploitDifficulty (vulns : List Vulnerability) : ℚ :=
  (vulns.map (fun v => EXPLOIT_DIFFICULTY (v.exploit_status.getD "unknown"))).sum /
    vulns.length

/-- `AttackPathAnalyzer._assess_security_controls`: `0.9 ^ controls`, one
increment per matching tag group per node. -/
def assess_security_controls (path : List PathNode) : ℚ :=
  let controls := (path.map (fun n =>
    (if "waf" ∈ n.tags ∨ "firewall" ∈ n.tags then 1 else 0) +
    (if "mfa" ∈ n.tags ∨ "2fa" ∈ n.tags then 1 else 0) +
    (if "edr" ∈ n.tags ∨ "ids" ∈ n.tags then 1 else 0))).sum
  (0.9 : ℚ) ^ controls

/-- `AttackPathAnalyzer._calculate_likelihood`.  A `None` vulnerability list
and an empty one behave identically (`if vulnerabilities:`), so the argument
is a plain list. -/
def calculate_likelihood (path : List PathNode) (vulns : List Vulnerability) : ℚ :=
  let base_likelihood : ℚ := 0.9
  let path_length_factor : ℚ := (0.95 : ℚ) ^ (path.length - 1)
  let exploit_factor : ℚ :=
    if vulns.isEmpty then 1 else 1 - avgExploitDifficulty vulns / 10
  let security_factor := assess_security_controls path
  max 0 (min 1 (base_likelihood * path_length_factor * exploit_factor * security_factor))

/-- `AttackPathAnalyzer._calculate_difficulty`. -/
def calculate_difficulty (path : List PathNode) (vulns : List Vulnerability) : ℚ :=
  let path_difficulty := (path.length : ℚ) * 1.5
  let exploit_difficulty := if vulns.isEmpty then 0 else avgExploitDifficulty vulns
  let traversal_difficulty := (path.length : ℚ) * 0.5
  min 10 (path_difficulty + exploit_difficulty + traversal_difficulty)

/-- `AttackPathAnalyzer._calculate_detectability`. -/
def calculate_detectability (path : List PathNode) : ℚ :=
  let length_factor := min 0.3 ((path.length : ℚ) * 0.05)
  let monitoring_factor := (path.map (fun n =>
    (if "monitored" ∈ n.tags then (0.1 : ℚ) else 0) +
    (if "logged" ∈ n.tags then 0.05 else 0))).sum
  max 0 (min 1 (0.5 + length_factor + monitoring_factor))

/-- `AttackPathAnalyzer._calculate_impact`. -/
def calculate_impact (path : List PathNode) : ℚ :=
  match path.getLast? with
  | none => 0
  | some target =>
    let base_impact := ASSET_IMPACT (target.criticality.getD "medium")
    let critical_count := path.countP (fun n => n.criticality = some "critical")
    min 10 (base_impact + min 2 ((critical_count : ℚ) * 0.5))

/-- `AttackPathAnalyzer._determine_skill_level`. -/
def determine_skill_level (difficulty : ℚ) : String :=
  if difficulty ≥ 8 then "expert"
  else if difficulty ≥ 6 then "high"
  else if difficulty ≥ 3 then "medium"
  else "low"

/-- `AttackPathAnalyzer._estimate_exploitation_time`. -/
def estimate_exploitation_time (difficulty : ℚ) (path_length : ℕ) : String :=
  let hours := difficulty * path_length
  if hours < 1 then "< 1 hour"
  else if hours < 8 then
    let h := toString (pyInt hours)
    s!"{h} hours"
  else if hours < 40 then
    let d := toString (pyInt (hours / 8))
    s!"{d} days"
  else if hours < 160 then
    let w := toString (pyInt (hours / 40))
    s!"{w} weeks"
  else
    let m := toString (pyInt (hours / 160))
    s!"{m} months"

/-- The `PathMetrics` dataclass. -/
structure PathMetrics where
  likelihood : ℚ
  difficulty : ℚ
  detectability : ℚ
  impact : ℚ
  skill_required : String
  time_estimate : String
deriving DecidableEq

/-- `AttackPathAnalyzer._calculate_path_metrics`. -/
def calculate_path_metrics (path : List PathNode) (vulns : List Vulnerability) :
    PathMetrics :=
  let difficulty := calculate_difficulty path vulns
  { likelihood := calculate_likelihood path vulns,
    difficulty := difficulty,
    detectability := calculate_detectability path,
    impact := calculate_impact path,
    skill_required := determine_skill_level difficulty,
    time_estimate := estimate_exploitation_time difficulty path.length }

/-- `AttackPathAnalyzer._is_path_viable`. -/
def is_path_viable (m : PathMetrics) : Bool :=
  m.likelihood > 0.1 ∧ m.difficulty < 9.5

/-- `AttackPathAnalyzer._calculate_path_risk`. -/
def calculate_path_risk (m : PathMetrics) : ℚ :=
  min 10 (m.likelihood * m.impact * (1 - m.detectability) * 1.5)

/-- `AttackPathAnalyzer._get_risk_level`. -/
def get_risk_level (risk_score : ℚ) : String :=
  if risk_score ≥ 7 then "critical"
  else if risk_score ≥ 5 then "high"
  else if risk_score ≥ 3 then "medium"
  else "low"

/-- `AttackPathAnalyzer._simplify_node`. -/
structure SimpleNode where
  id : Option String
  ntype : Option String
  value : Option String
  criticality : Option String
deriving DecidableEq

def simplify_node (n : PathNode) : SimpleNode :=
  { id := n.id, ntype := n.ntype, value := n.value, criticality := n.criticality }

/-- `AttackPathAnalyzer._generate_path_recommendations`. -/
def generate_path_recommendations (path : List PathNode) (m : PathMetrics)
    (vulns : List Vulnerability) : List String :=
  (if m.likelihood > 0.7 then
    ["🚨 HIGH LIKELIHOOD: This attack path is highly exploitable - immediate action required"]
   else []) ++
  (if m.impact ≥ 8 then
    ["⚠️ HIGH IMPACT: Target is critical asset - prioritize protection"] else []) ++
  (if m.detectability < 0.3 then
    ["👁️ LOW DETECTABILITY: Implement monitoring and logging along this path"] else []) ++
  (vulns.filterMap (fun v =>
    if v.exploit_status = some "weaponized" then
      let pid := v.id.getD "vulnerability"
      some s!"Patch {pid} immediately - public exploits available"
    else none)) ++
  (if path.length ≤ 2 then ["Short attack path - implement defense in depth"] else []) ++
  (if m.skill_required = "low" then
    ["Low skill required - script kiddies could exploit this path"] else []) ++
  (let t := m.time_estimate
   [s!"Estimated exploitation time: {t} - ensure detection within this window"]) ++
  ["Consider network segmentation to break attack path",
   "Implement principle of least privilege"]

/-- The analysis dict of a valid path (`analyzed_at` omitted). -/
structure PathRecord where
  viable : Bool
  path_length : ℕ
  source : Option String
  target : Option String
  likelihood : ℚ
  difficulty : ℚ
  detectability : ℚ
  impact : ℚ
  skill_required : String
  estimated_time : String
  overall_risk : ℚ
  risk_level : String
  nodes : List SimpleNode
  recommendations : List String
deriving DecidableEq

/-- `analyze_path` returns either the `{"valid": False, "reason": ...}` dict or
the full analysis dict. -/
inductive PathResult where
  | invalid (reason : String)
  | ok (record : PathRecord)
deriving DecidableEq

/-- `AttackPathAnalyzer.analyze_path`. -/
def analyze_path (path : List PathNode) (vulns : List Vulnerability) : PathResult :=
  if path.length < 2 then .invalid "Path too short"
  else
    let metrics := calculate_path_metrics path vulns
    let path_risk := calculate_path_risk metrics
    .ok
      { viable := is_path_viable metrics,
        path_length := path.length,
        source := (path.head?.bind (fun n => n.value.or n.id)),
        target := (path.getLast?.bind (fun n => n.value.or n.id)),
        likelihood := pyRound metrics.likelihood 3,
        difficulty := pyRound metrics.difficulty 2,
        detectability := pyRound metrics.detectability 3,
        impact := pyRound metrics.impact 2,
        skill_required := metrics.skill_required,
        estimated_time := metrics.time_estimate,
        overall_risk := pyRound path_risk 2,
        risk_level := get_risk_level path_risk,
        nodes := path.map simplify_node,
        recommendations := generate_path_recommendations path metrics vulns }

/-- The likelihood field of an analysis result (`0` for the invalid dict,
which carries no `likelihood` key). -/
def likelihoodOf : PathResult → ℚ
  | .invalid _ => 0
  | .ok r => r.likelihood

/-- An already-analyzed path dict as consumed by `rank_attack_paths` and
`identify_critical_nodes`: only `overall_risk`, `rank` and `nodes` are read or
written; every other key is opaque payload carried through unchanged. -/
structure RankedPath (α : Type) where
  overall_risk : Option ℚ
  rank : Option ℕ
  nodes : List SimpleNode
  payload : α
deriving DecidableEq

/-- The 1-based rank assignment of `rank_attack_paths` (`enumerate(ranked, 1)`). -/
def assignRanks {α : Type} : ℕ → List (RankedPath α) → List (RankedPath α)
  | _, [] => []
  | n, p :: rest => { p with rank := some n } :: assignRanks (n + 1) rest

/-- `AttackPathAnalyzer.rank_attack_paths`. -/
def rank_attack_paths {α : Type} (paths : List (RankedPath α)) : List (RankedPath α) :=
  if paths.isEmpty then []
  else assignRanks 1
    (paths.mergeSort (fun a b => decide (b.overall_risk.getD 0 ≤ a.overall_risk.getD 0)))

/-! ### ConfidenceScorer and MultiINTCorrelator
(backend/services/fusion/correlator.py) -/

/-- `ConfidenceScorer.CONFIDENCE_LEVELS`, in dict insertion order:
`(label, min_score, max_score)`. -/
def CONFIDENCE_LEVELS : List (String × ℚ × ℚ) :=
  [("high", 0.8, 1.0), ("moderate", 0.5, 0.8), ("low", 0.2, 0.5), ("minimal", 0.0, 0.2)]

/-- `ConfidenceScorer.get_confidence_label`: first band with
`min_score <= score < max_score`, falling back to `"minimal"`. -/
def get_confidence_label (score : ℚ) : String :=
  match CONFIDENCE_LEVELS.find? (fun p => decide (p.2.1 ≤ score) && decide (score < p.2.2)) with
  | some p => p.1
  | none => "minimal"

/-- `ConfidenceScorer.calculate_source_confidence`. -/
def calculate_source_confidence (source_type : String) (source_reputation : ℚ) : ℚ :=
  let base :=
    if asciiLower source_type = "osint" then (0.7 : ℚ) else
    if asciiLower source_type = "sigint" then 0.85 else
    if asciiLower source_type = "cybint" then 0.9 else
    if asciiLower source_type = "geoint" then 0.8 else
    if asciiLower source_type = "humint" then 0.6 else 0.5
  (base + source_reputation) / 2

/-- A source dict `{"type": ..., "reputation": ...}`.  Every call site in the
correlator builds these dicts with both keys present, so the fields are not
optional here. -/
structure Source where
  stype : String
  reputation : ℚ
deriving DecidableEq

/-- `ConfidenceScorer.calculate_multi_source_confidence`. -/
def calculate_multi_source_confidence (sources : List Source) : ℚ :=
  match sources with
  | [] => 0
  | [s] => calculate_source_confidence s.stype s.reputation
  | primary :: rest =>
    let source_types := (sources.map (fun s => asciiLower s.stype)).dedup
    let conf0 := calculate_source_confidence primary.stype primary.reputation
    let conf1 := rest.foldl (fun c s =>
      let source_conf := calculate_source_confidence s.stype s.reputation
      if asciiLower s.stype ≠ asciiLower primary.stype then
        min (c + source_conf * 0.15) 1
      else
        min (c + source_conf * 0.05) 1) conf0
    min (conf1 + ((source_types.length : ℚ) - 1) * 0.05) 1

/-- An event consumed by `temporal_correlation`; `timestamp` is a time
coordinate in hours and folds in the source's `observed_time` fallback
(`event.get("timestamp", event.get("observed_time"))`); `none` models a value
that is not a `datetime`, which the clustering loop skips. -/
structure TEvent where
  timestamp : Option ℚ
  source_type : Option String
deriving DecidableEq

/-- Sort key of `temporal_correlation`: a missing timestamp sorts as
`datetime.min`, the bottom element. -/
def tkey (e : TEvent) : WithBot ℚ :=
  match e.timestamp with
  | none => ⊥
  | some t => (t : WithBot ℚ)

/-- The event list sorted by timestamp (Python `sorted` is stable, as is
`mergeSort`). -/
def tsort (events : List TEvent) : List TEvent :=
  events.mergeSort (fun a b => decide (tkey a ≤ tkey b))

/-- The greedy clustering loop of `temporal_correlation`: arguments are the
remaining events, the finished clusters, the current cluster and the current
cluster's start time.  `start` is meaningless while the current cluster is
empty (the source holds `None` there) and is set before first use. -/
def tcGo (w : ℚ) : List TEvent → List (List TEvent) → List TEvent → ℚ →
    List (List TEvent)
  | [], clusters, cur, _ => if cur.length > 1 then clusters ++ [cur] else clusters
  | e :: rest, clusters, cur, start =>
    match e.timestamp with
    | none => tcGo w rest clusters cur start
    | some t =>
      if cur.isEmpty then tcGo w rest clusters [e] t
      else if t - start ≤ w then tcGo w rest clusters (cur ++ [e]) start
      else tcGo w rest (if cur.length > 1 then clusters ++ [cur] else clusters) [e] t

/-- A temporal-cluster dict (the `analysis` string, which interpolates a
formatted float, is omitted).  The `sources` set is modelled as `dedup`, the
iteration order of a Python `set` being unspecified. -/
structure TemporalCluster where
  cluster_id : String
  event_count : ℕ
  time_span_hours : ℚ
  start_time : Option ℚ
  end_time : Option ℚ
  sources : List (Option String)
  confidence : ℚ
  confidence_label : String
  events : List TEvent
deriving DecidableEq

/-- Builds the correlation record of one cluster (`now` models the
`datetime.now()` default used when a member lacks a `timestamp` key). -/
def mkTemporalCluster (now : ℚ) (idx : ℕ) (cluster : List TEvent) : TemporalCluster :=
  let n := idx + 1
  let firstTs := (cluster.head?.bind (·.timestamp)).getD now
  let lastTs := (cluster.getLast?.bind (·.timestamp)).getD now
  let confidence := calculate_multi_source_confidence
    (cluster.map (fun e => { stype := e.source_type.getD "osint", reputation := 0.8 }))
  { cluster_id := s!"temporal-cluster-{n}",
    event_count := cluster.length,
    time_span_hours := lastTs - firstTs,
    start_time := cluster.head?.bind (·.timestamp),
    end_time := cluster.getLast?.bind (·.timestamp),
    sources := (cluster.map (·.source_type)).dedup,
    confidence := confidence,
    confidence_label := get_confidence_label confidence,
    events := cluster }

/-- `enumerate` over the finished clusters. -/
def buildTemporalClusters (now : ℚ) : ℕ → List (List TEvent) → List TemporalCluster
  | _, [] => []
  | idx, c :: rest => mkTemporalCluster now idx c :: buildTemporalClusters now (idx + 1) rest

/-- `MultiINTCorrelator.temporal_correlation`.  `temporal_window` is the
constructor default (24 unless overridden); a `window_hours` of `None` or `0`
is falsy and falls back to it. -/
def temporal_correlation (now temporal_window : ℚ) (events : List TEvent)
    (window_hours : Option ℚ) : List TemporalCluster :=
  let window := match window_hours with
    | some w => if w = 0 then temporal_window else w
    | none => temporal_window
  buildTemporalClusters now 0 (tcGo window (tsort events) [] [] 0)

/-- An IOC-correlation record as consumed by `identify_campaigns` (the fields
produced by `correlate_indicators` that `identify_campaigns` reads;
`first_seen`/`last_seen` are time coordinates). -/
structure IocCorrelation where
  ioc_value : String
  ioc_type : Option String
  occurrence_count : ℕ
  confidence : ℚ
  threat_actors : List String
  malware_families : List String
  first_seen : Option ℚ
  last_seen : Option ℚ
deriving DecidableEq

/-- A temporal cluster as consumed by `identify_campaigns`: each event enters
only through `str(e)`, its textual rendering, so events are carried as their
rendered strings here; `event_count` backs the `total_events` sum. -/
structure TemporalClusterRef where
  event_count : ℕ
  events : List String
deriving DecidableEq

/-- The temporal clusters whose rendered events mention the IOC's value
(`any(ioc_corr["ioc_value"] in str(e) for e in temporal.get("events", []))`). -/
def relatedTemporal (temps : List TemporalClusterRef) (ic : IocCorrelation) :
    List TemporalClusterRef :=
  temps.filter (fun t => t.events.any (fun e => strContains e ic.ioc_value))

/-- A campaign record. -/
structure Campaign where
  campaign_id : String
  ioc : String
  ioc_type : Option String
  threat_actors : List String
  malware_families : List String
  temporal_clusters : ℕ
  total_events : ℕ
  confidence : ℚ
  confidence_label : String
  first_observed : Option ℚ
  last_observed : Option ℚ
  assessment : String
deriving DecidableEq

/-- Builds the campaign appended for one qualifying IOC cluster; `n` is
`len(campaigns) + 1` at the moment of appending. -/
def mkCampaign (ic : IocCorrelation) (related : List TemporalClusterRef) (n : ℕ) :
    Campaign :=
  let confidence := min (ic.confidence * 1.1) 1
  { campaign_id := s!"campaign-{n}",
    ioc := ic.ioc_value,
    ioc_type := ic.ioc_type,
    threat_actors := ic.threat_actors,
    malware_families := ic.malware_families,
    temporal_clusters := related.length,
    total_events := (related.map (·.event_count)).sum,
    confidence := confidence,
    confidence_label := get_confidence_label confidence,
    first_observed := ic.first_seen,
    last_observed := ic.last_seen,
    assessment :=
      "Coordinated threat campaign detected based on correlated indicators and temporal patterns" }

/-- The accumulation loop of `identify_campaigns`: clusters below 0.7
confidence are skipped before the occurrence-count test is ever reached. -/
def icLoop (temps : List TemporalClusterRef) :
    List IocCorrelation → List Campaign → List Campaign
  | [], acc => acc
  | ic :: rest, acc =>
    if ic.confidence < 0.7 then icLoop temps rest acc
    else
      let related := relatedTemporal temps ic
      if ¬related.isEmpty ∨ ic.occurrence_count > 3 then
        icLoop temps rest (acc ++ [mkCampaign ic related (acc.length + 1)])
      else icLoop temps rest acc

/-- `MultiINTCorrelator.identify_campaigns`. -/
def identify_campaigns (ioc_correlations : List IocCorrelation)
    (temporal_clusters : List TemporalClusterRef) : List Campaign :=
  (icLoop temporal_clusters ioc_correlations []).mergeSort
    (fun a b => decide (b.confidence ≤ a.confidence))

/-! ### PredictiveAnalytics (backend/services/analytics/predictor.py) -/

/-- An event consumed by `detect_anomalies`; the field holds the calendar-day
key of the event's timestamp (the ISO parsing and `%Y-%m-%d` rendering of
`_build_timeline` are abstracted into the key itself).  A missing key or empty
value is falsy and the event is skipped. -/
structure PEvent where
  timestamp : Option String
deriving DecidableEq

/-- The truthy date key of an event. -/
def dateKeyOf (e : PEvent) : Option String :=
  match e.timestamp with
  | none => none
  | some s => if s = "" then none else some s

/-- Increment the per-day counter of a key, preserving dict insertion order. -/
def bumpDay (k : String) : List (String × ℕ) → List (String × ℕ)
  | [] => [(k, 1)]
  | e :: rest => if e.1 = k then (e.1, e.2 + 1) :: rest else e :: bumpDay k rest

/-- `PredictiveAnalytics._build_timeline`: per-day counts, then
`dict(sorted(timeline.items()))`. -/
def build_timeline (events : List PEvent) : List (String × ℕ) :=
  ((events.filterMap dateKeyOf).foldl (fun m k => bumpDay k m) []).mergeSort
    (fun a b => decide (a.1 ≤ b.1))

/-- The per-day count values of the timeline, as rationals. -/
def timelineValues (events : List PEvent) : List ℚ :=
  (build_timeline events).map (fun p => (p.2 : ℚ))

/-- `statistics.mean(values)` of `detect_anomalies`. -/
def detectMean (events : List PEvent) : ℚ := pyMean (timelineValues events)

/-- `statistics.stdev(values) if len(values) > 1 else 0` of `detect_anomalies`.
`sqrtFn` abstracts the floating-point square root inside `statistics.stdev`;
every theorem about it assumes only `sqrtFn 0 = 0`. -/
def detectStdev (sqrtFn : ℚ → ℚ) (events : List PEvent) : ℚ :=
  if (timelineValues events).length > 1 then sqrtFn (sampleVariance (timelineValues events))
  else 0

/-- The z-score of one day: `(count - mean) / stdev if stdev > 0 else 0`. -/
def anomaly_z (stdev mean : ℚ) (count : ℕ) : ℚ :=
  if stdev > 0 then ((count : ℚ) - mean) / stdev else 0

/-- An anomaly record (the `expected_range` and `description` strings, which
interpolate formatted floats, are omitted). -/
structure Anomaly where
  date : String
  event_count : ℕ
  z_score : ℚ
  severity : String
  atype : String
deriving DecidableEq

/-- `PredictiveAnalytics.detect_anomalies`. -/
def detect_anomalies (sqrtFn : ℚ → ℚ) (events : List PEvent)
    (threshold_std : ℚ) : List Anomaly :=
  if events.length < 10 then []
  else
    let timeline := build_timeline events
    let mean := detectMean events
    let stdev := detectStdev sqrtFn events
    let anomalies := timeline.filterMap (fun p =>
      let z := anomaly_z stdev mean p.2
      if |z| > threshold_std then
        some { date := p.1,
               event_count := p.2,
               z_score := pyRound z 2,
               severity := if |z| > 3 then "critical" else if |z| > 2.5 then "high" else "medium",
               atype := if z > 0 then "spike" else "drop" }
      else none)
    anomalies.mergeSort (fun a b => decide (|b.z_score| ≤ |a.z_score|))

/-! ### identify_critical_nodes (backend/services/analytics/attack_paths.py) -/

/-- The truthy node id used by `identify_critical_nodes` (`node.get("id")`
followed by a truthiness test, so `None` and `""` are skipped). -/
def truthyId (n : SimpleNode) : Option String :=
  match n.id with
  | none => none
  | some s => if s = "" then none else some s

/-- The truthy node ids of one analyzed path. -/
def pathNodeIds {α : Type} (p : RankedPath α) : List String :=
  p.nodes.filterMap truthyId

/-- One `(node_id, path_risk)` pair per counted node occurrence, in iteration
order over paths and their nodes. -/
def pathOccs {α : Type} (p : RankedPath α) : List (String × ℚ) :=
  (pathNodeIds p).map (fun i => (i, p.overall_risk.getD 0))

/-- All counted node occurrences across the input paths. -/
def allOccs {α : Type} (paths : List (RankedPath α)) : List (String × ℚ) :=
  (paths.map pathOccs).flatten

/-- Number of occurrences of a node id among the counted occurrences. -/
def occCount (k : String) : List (String × ℚ) → ℕ
  | [] => 0
  | kv :: rest => (if kv.1 = k then 1 else 0) + occCount k rest

/-- One step of the two parallel dicts `node_frequency` / `node_total_risk`
(they share their key set, so they are fused into one association list,
preserving dict insertion order). -/
def bumpOcc (k : String) (r : ℚ) : List (String × ℕ × ℚ) → List (String × ℕ × ℚ)
  | [] => [(k, 1, r)]
  | e :: rest =>
    if e.1 = k then (e.1, e.2.1 + 1, e.2.2 + r) :: rest else e :: bumpOcc k r rest

/-- The fused frequency/total-risk map after the counting loops. -/
def nodeMaps {α : Type} (paths : List (RankedPath α)) : List (String × ℕ × ℚ) :=
  (allOccs paths).foldl (fun m kv => bumpOcc kv.1 kv.2 m) []

/-- The frequency stored for a key (0 when absent). -/
def lookupCount (k : String) : List (String × ℕ × ℚ) → ℕ
  | [] => 0
  | e :: rest => if e.1 = k then e.2.1 else lookupCount k rest

/-- The key list of the fused map. -/
def mapKeys (m : List (String × ℕ × ℚ)) : List String := m.map (fun e => e.1)

/-- A chokepoint record of `identify_critical_nodes`. -/
structure CriticalNode where
  node_id : String
  frequency : ℕ
  average_risk : ℚ
  criticality_score : ℚ
  recommendation : String
deriving DecidableEq

/-- `AttackPathAnalyzer.identify_critical_nodes`. -/
def identify_critical_nodes {α : Type} (paths : List (RankedPath α)) :
    List CriticalNode :=
  let entries := (nodeMaps paths).filterMap (fun e =>
    if e.2.1 > 1 then
      let frequency := e.2.1
      let avg_risk := e.2.2 / (e.2.1 : ℚ)
      some { node_id := e.1,
             frequency := frequency,
             average_risk := pyRound avg_risk 2,
             criticality_score := pyRound ((frequency : ℚ) * avg_risk) 2,
             recommendation :=
               s!"Critical chokepoint - securing this node blocks {frequency} attack paths" }
    else none)
  entries.mergeSort (fun a b => decide (b.criticality_score ≤ a.criticality_score))

/-- Forgets the `rank` field of an analyzed path, leaving every other field. -/
def clearRank {α : Type} (p : RankedPath α) : RankedPath α := { p with rank := none }

/-! ### Concrete sample inputs (used by the witness theorems) -/

def sampleAsset : Asset :=
  { id := some "asset-1", value := some "db.example.com",
    criticality := some "high", tags := ["internet-facing"] }

def sampleVuln : Vulnerability :=
  { id := some "CVE-2024-0001", cvss_score := some (49/5),
    exploit_status := some "weaponized", patch_available := true,
    published_date := some 97 }

def sampleCtx : ThreatContext := { active_exploitation := true }

def sampleNodeA : PathNode :=
  { id := some "n1", ntype := some "service", value := some "web",
    criticality := some "low", tags := [] }

def sampleNodeB : PathNode :=
  { id := some "n2", ntype := some "service", value := some "db",
    criticality := some "critical", tags := ["monitored"] }

def sampleIoc : IocCorrelation :=
  { ioc_value := "evil.example.com", ioc_type := some "domain",
    occurrence_count := 4, confidence := 1/2, threat_actors := [],
    malware_families := [], first_seen := none, last_seen := none }

/-- A single analyzed path whose node list mentions the same node id twice. -/
def dupNodePath : RankedPath ℕ :=
  { overall_risk := some 1, rank := none,
    nodes := [{ id := some "a", ntype := none, value := none, criticality := none },
              { id := some "a", ntype := none, value := none, criticality := none }],
    payload := 0 }

def sampleTEvent (t : ℚ) (st : String) : TEvent :=
  { timestamp := some t, source_type := some st }

def samplePEvents : List PEvent :=
  List.replicate 10 { timestamp := some "2024-01-01" }

/-! ### Rounding lemmas -/

theorem round_rat_mono {a b : ℚ} (h : a ≤ b) : round a ≤ round b := by
  rw [round_eq, round_eq]
  exact Int.floor_le_floor (by linarith)

theorem round_eq_floor_of_lt_half {q : ℚ} (h : q - ⌊q⌋ < 1/2) : round q = ⌊q⌋ := by
  rw [round_eq]
  apply Int.floor_eq_iff.mpr
  refine ⟨by linarith [Int.floor_le q], by linarith⟩

theorem round_eq_floor_add_one_of_half_lt {q : ℚ} (h : 1/2 < q - ⌊q⌋) :
    round q = ⌊q⌋ + 1 := by
  rw [round_eq]
  apply Int.floor_eq_iff.mpr
  constructor
  · push_cast; linarith
  · push_cast; linarith [Int.lt_floor_add_one q]

theorem floor_le_rhe (q : ℚ) : ⌊q⌋ ≤ rhe q := by
  unfold rhe
  split_ifs with h1 h2
  · exact le_refl _
  · omega
  · rw [round_eq]
    exact Int.floor_le_floor (by linarith)

theorem rhe_le_floor_add_one (q : ℚ) : rhe q ≤ ⌊q⌋ + 1 := by
  unfold rhe
  split_ifs with h1 h2
  · omega
  · omega
  · have : ⌊q + 1/2⌋ < ⌊q⌋ + 2 := by
      apply Int.floor_lt.mpr
      push_cast
      linarith [Int.lt_floor_add_one q]
    rw [round_eq]
    omega

theorem rhe_le_ceil (q : ℚ) : rhe q ≤ ⌈q⌉ := by
  have hfc : ⌊q⌋ ≤ ⌈q⌉ := Int.floor_le_ceil q
  have hne : q - ⌊q⌋ ≠ 0 → ⌊q⌋ + 1 ≤ ⌈q⌉ := by
    intro h
    have h1 : (⌊q⌋ : ℚ) < q :=
      lt_of_le_of_ne (Int.floor_le q) (fun he => h (by rw [he, sub_self]))
    have h2 : (⌊q⌋ : ℚ) < (⌈q⌉ : ℚ) := lt_of_lt_of_le h1 (Int.le_ceil q)
    exact_mod_cast Int.add_one_le_iff.mpr (by exact_mod_cast h2)
  unfold rhe
  split_ifs with h1 h2
  · exact hfc
  · exact hne (by rw [h1]; norm_num)
  · rcases lt_or_gt_of_ne h1 with hlt | hgt
    · rw [round_eq_floor_of_lt_half hlt]
      exact hfc
    · rw [round_eq_floor_add_one_of_half_lt hgt]
      exact hne (by intro h0; rw [h0] at hgt; norm_num at hgt)

theorem rhe_mono {a b : ℚ} (h : a ≤ b) : rhe a ≤ rhe b := by
  rcases lt_or_eq_of_le (Int.floor_le_floor h : ⌊a⌋ ≤ ⌊b⌋) with hf | hf
  · calc rhe a ≤ ⌊a⌋ + 1 := rhe_le_floor_add_one a
      _ ≤ ⌊b⌋ := hf
      _ ≤ rhe b := floor_le_rhe b
  · by_cases ha : a - ⌊a⌋ = 1/2 <;> by_cases hb : b - ⌊b⌋ = 1/2
    · have : a = b := by
        have hfa : (⌊a⌋ : ℚ) = (⌊b⌋ : ℚ) := by exact_mod_cast hf
        linarith
      rw [this]
    · have hgt : 1/2 < b - ⌊b⌋ := by
        rcases lt_or_gt_of_ne hb with h1 | h1
        · exfalso
          have hfa : (⌊a⌋ : ℚ) = (⌊b⌋ : ℚ) := by exact_mod_cast hf
          linarith
        · exact h1
      have hrb : rhe b = ⌊b⌋ + 1 := by
        unfold rhe
        rw [if_neg hb, round_eq_floor_add_one_of_half_lt hgt]
      rw [hrb, ← hf]
      exact rhe_le_floor_add_one a
    · have hlt : a - ⌊a⌋ < 1/2 := by
        rcases lt_or_gt_of_ne ha with h1 | h1
        · exact h1
        · exfalso
          have hfa : (⌊a⌋ : ℚ) = (⌊b⌋ : ℚ) := by exact_mod_cast hf
          linarith
      have hra : rhe a = ⌊a⌋ := by
        unfold rhe
        rw [if_neg ha, round_eq_floor_of_lt_half hlt]
      rw [hra, hf]
      exact floor_le_rhe b
    · have hra : rhe a = round a := by unfold rhe; rw [if_neg ha]
      have hrb : rhe b = round b := by unfold rhe; rw [if_neg hb]
      rw [hra, hrb]
      exact round_rat_mono h

theorem pyRound_mono {a b : ℚ} (n : ℕ) (h : a ≤ b) : pyRound a n ≤ pyRound b n := by
  unfold pyRound
  apply div_le_div_of_nonneg_right _ (by positivity)
  exact_mod_cast rhe_mono (mul_le_mul_of_nonneg_right h (by positivity))

theorem pyRound_le_of_le {q : ℚ} {b : ℤ} (n : ℕ) (h : q ≤ (b : ℚ)) :
    pyRound q n ≤ (b : ℚ) := by
  unfold pyRound
  rw [div_le_iff₀ (by positivity : (0:ℚ) < 10 ^ n)]
  have h1 : rhe (q * 10 ^ n) ≤ ⌈q * 10 ^ n⌉ := rhe_le_ceil _
  have h2 : ⌈q * 10 ^ n⌉ ≤ b * 10 ^ n := by
    apply Int.ceil_le.mpr
    push_cast
    exact mul_le_mul_of_nonneg_right h (by positivity)
  calc ((rhe (q * 10 ^ n) : ℚ)) ≤ ((b * 10 ^ n : ℤ) : ℚ) := by
        exact_mod_cast le_trans h1 h2
    _ = (b : ℚ) * 10 ^ n := by push_cast; ring

theorem le_pyRound_of_le {q : ℚ} {a : ℤ} (n : ℕ) (h : (a : ℚ) ≤ q) :
    (a : ℚ) ≤ pyRound q n := by
  unfold pyRound
  rw [le_div_iff₀ (by positivity : (0:ℚ) < 10 ^ n)]
  have h1 : a * 10 ^ n ≤ ⌊q * 10 ^ n⌋ := by
    apply Int.le_floor.mpr
    push_cast
    exact mul_le_mul_of_nonneg_right h (by positivity)
  have h2 : ⌊q * 10 ^ n⌋ ≤ rhe (q * 10 ^ n) := floor_le_rhe _
  calc (a : ℚ) * 10 ^ n = ((a * 10 ^ n : ℤ) : ℚ) := by push_cast; ring
    _ ≤ (rhe (q * 10 ^ n) : ℚ) := by exact_mod_cast le_trans h1 h2

theorem pyRound_nonneg {q : ℚ} (n : ℕ) (h : 0 ≤ q) : 0 ≤ pyRound q n := by
  have := le_pyRound_of_le (a := 0) n (by exact_mod_cast h)
  exact_mod_cast this

theorem pyRound_le_ten {q : ℚ} (n : ℕ) (h : q ≤ 10) : pyRound q n ≤ 10 := by
  have := pyRound_le_of_le (b := 10) n (by exact_mod_cast h)
  exact_mod_cast this

/-! ### Factor bounds of the risk engine -/

theorem ASSET_CRITICALITY_pos (k : String) : 0 < ASSET_CRITICALITY k := by
  unfold ASSET_CRITICALITY
  split_ifs <;> norm_num

theorem EXPLOIT_AVAILABILITY_pos (k : String) : 0 < EXPLOIT_AVAILABILITY k := by
  unfold EXPLOIT_AVAILABILITY
  split_ifs <;> norm_num

theorem calculate_threat_factor_ge_one (tc : ThreatContext) :
    1 ≤ calculate_threat_factor tc := by
  unfold calculate_threat_factor THREAT_INTEL_WEIGHTS
  split_ifs <;> norm_num

theorem calculate_targeting_factor_ge_one (tc : ThreatContext) :
    1 ≤ calculate_targeting_factor tc := by
  unfold calculate_targeting_factor
  split_ifs <;> norm_num

theorem calculate_exposure_factor_ge_one (asset : Asset) :
    1 ≤ calculate_exposure_factor asset := by
  unfold calculate_exposure_factor
  split_ifs <;> norm_num

theorem calculate_age_factor_pos (vuln : Vulnerability) (now : ℚ) :
    0 < calculate_age_factor vuln now := by
  unfold calculate_age_factor
  rcases vuln.published_date with _ | pub
  · norm_num
  · simp only []
    split_ifs <;> norm_num

/-! ### Evaluation lemmas for `calculate_risk_score` -/

theorem calculate_risk_score_factors_some (asset : Asset) (vuln : Vulnerability)
    (tc : ThreatContext) (now : ℚ) :
    (calculate_risk_score asset vuln (some tc) now).factors =
      { cvss_score := vuln.cvss_score.getD 0,
        threat_intel_factor := calculate_threat_factor tc,
        exploit_factor := EXPLOIT_AVAILABILITY (asciiLower (vuln.exploit_status.getD "unknown")),
        asset_criticality_factor := ASSET_CRITICALITY (asciiLower (asset.criticality.getD "medium")),
        exposure_factor := calculate_exposure_factor asset,
        age_factor := calculate_age_factor vuln now,
        active_targeting_factor := calculate_targeting_factor tc } := rfl

theorem calculate_risk_score_factors_none (asset : Asset) (vuln : Vulnerability)
    (now : ℚ) :
    (calculate_risk_score asset vuln none now).factors =
      { cvss_score := vuln.cvss_score.getD 0,
        threat_intel_factor := 1,
        exploit_factor := EXPLOIT_AVAILABILITY (asciiLower (vuln.exploit_status.getD "unknown")),
        asset_criticality_factor := ASSET_CRITICALITY (asciiLower (asset.criticality.getD "medium")),
        exposure_factor := calculate_exposure_factor asset,
        age_factor := calculate_age_factor vuln now,
        active_targeting_factor := 1 } := rfl

theorem risk_score_eq (asset : Asset) (vuln : Vulnerability)
    (ctx : Option ThreatContext) (now : ℚ) :
    (calculate_risk_score asset vuln ctx now).risk_score =
      pyRound (compute_final_score ((calculate_risk_score asset vuln ctx now).factors)) 2 := by
  cases ctx <;> rfl

theorem severity_eq (asset : Asset) (vuln : Vulnerability)
    (ctx : Option ThreatContext) (now : ℚ) :
    (calculate_risk_score asset vuln ctx now).severity =
      get_severity (compute_final_score ((calculate_risk_score asset vuln ctx now).factors)) := by
  cases ctx <;> rfl

theorem priority_eq (asset : Asset) (vuln : Vulnerability)
    (ctx : Option ThreatContext) (now : ℚ) :
    (calculate_risk_score asset vuln ctx now).priority =
      calculate_priority (compute_final_score ((calculate_risk_score asset vuln ctx now).factors))
        ((calculate_risk_score asset vuln ctx now).factors) := by
  cases ctx <;> rfl

theorem riskFactors_bounds (asset : Asset) (vuln : Vulnerability)
    (ctx : Option ThreatContext) (now : ℚ) :
    (calculate_risk_score asset vuln ctx now).factors.cvss_score = vuln.cvss_score.getD 0 ∧
    0 < (calculate_risk_score asset vuln ctx now).factors.asset_criticality_factor ∧
    0 < (calculate_risk_score asset vuln ctx now).factors.exploit_factor ∧
    0 < (calculate_risk_score asset vuln ctx now).factors.threat_intel_factor ∧
    0 < (calculate_risk_score asset vuln ctx now).factors.exposure_factor ∧
    0 < (calculate_risk_score asset vuln ctx now).factors.age_factor ∧
    0 < (calculate_risk_score asset vuln ctx now).factors.active_targeting_factor := by
  rcases ctx with _ | tc
  · rw [calculate_risk_score_factors_none]
    refine ⟨rfl, ASSET_CRITICALITY_pos _, EXPLOIT_AVAILABILITY_pos _, by norm_num, ?_, ?_, by norm_num⟩
    · linarith [calculate_exposure_factor_ge_one asset]
    · exact calculate_age_factor_pos vuln now
  · rw [calculate_risk_score_factors_some]
    refine ⟨rfl, ASSET_CRITICALITY_pos _, EXPLOIT_AVAILABILITY_pos _, ?_, ?_, ?_, ?_⟩
    · linarith [calculate_threat_factor_ge_one tc]
    · linarith [calculate_exposure_factor_ge_one asset]
    · exact calculate_age_factor_pos vuln now
    · linarith [calculate_targeting_factor_ge_one tc]

theorem compute_final_score_le_ten (F : RiskFactors) : compute_final_score F ≤ 10 :=
  min_le_right _ _

theorem compute_final_score_nonneg (F : RiskFactors) (h0 : 0 ≤ F.cvss_score)
    (h1 : 0 < F.asset_criticality_factor) (h2 : 0 < F.exploit_factor)
    (h3 : 0 < F.threat_intel_factor) (h4 : 0 < F.exposure_factor)
    (h5 : 0 < F.age_factor) (h6 : 0 < F.active_targeting_factor) :
    0 ≤ compute_final_score F := by
  unfold compute_final_score
  apply le_min _ (by norm_num)
  positivity

/-! ### Claim theorems: C9, C2, C1 -/

/-- C9: for every asset, `calculate_asset_risk_profile` with an empty
vulnerability list never fails and returns `overall_risk = 0.0`,
`vulnerability_count = 0`, all severity counts `0` and `severity = "none"` —
and `"none"` lies outside the severity-band vocabulary produced by
`get_severity` everywhere else. -/
theorem C9_empty_profile (asset : Asset) (ctxs : List (Option ThreatContext)) (now : ℚ) :
    calculate_asset_risk_profile asset [] ctxs now =
      { asset_id := asset.id, asset_value := none, overall_risk := 0,
        severity := "none", vulnerability_count := 0,
        critical_count := 0, high_count := 0, medium_count := 0, low_count := 0,
        top_risks := [], urgent_actions_required := false } ∧
    ∀ s : ℚ, get_severity s ≠ "none" := by
  refine ⟨rfl, fun s => ?_⟩
  unfold get_severity
  split_ifs <;> decide

/-- Witness for C9 at a concrete asset. -/
theorem C9_empty_profile_witness :
    (calculate_asset_risk_profile sampleAsset [] [] 0).severity = "none" ∧
      get_severity 5 ≠ "none" := by
  have h := C9_empty_profile sampleAsset [] 0
  exact ⟨by rw [h.1], h.2 5⟩

theorem find_band_cons {s lo hi : ℚ} {lbl : String} {rest : List (String × ℚ × ℚ)}
    (h1 : lo ≤ s) (h2 : s < hi) :
    List.find? (fun p => decide (p.2.1 ≤ s) && decide (s < p.2.2)) ((lbl, lo, hi) :: rest) =
      some (lbl, lo, hi) := by
  apply List.find?_cons_of_pos
  simp only [Bool.and_eq_true, decide_eq_true_eq]
  exact ⟨h1, h2⟩

theorem find_band_cons_skip {s lo hi : ℚ} {lbl : String} {rest : List (String × ℚ × ℚ)}
    (h : s < lo ∨ hi ≤ s) :
    List.find? (fun p => decide (p.2.1 ≤ s) && decide (s < p.2.2)) ((lbl, lo, hi) :: rest) =
      List.find? (fun p => decide (p.2.1 ≤ s) && decide (s < p.2.2)) rest := by
  apply List.find?_cons_of_neg
  simp only [Bool.and_eq_true, decide_eq_true_eq, not_and]
  intro hle
  rcases h with h | h
  · exact absurd hle (not_le.mpr h)
  · exact not_lt.mpr h

/-- C2: `get_confidence_label` returns `"high"` on `[0.8, 1)`, `"moderate"` on
`[0.5, 0.8)`, `"low"` on `[0.2, 0.5)` and `"minimal"` on `[0, 0.2)`, but at
the claimed in-band score `1.0` it falls through every half-open band and
returns `"minimal"`, not `"high"`. -/
theorem C2_confidence_label :
    (∀ s : ℚ, 0.8 ≤ s → s < 1 → get_confidence_label s = "high") ∧
    (∀ s : ℚ, 0.5 ≤ s → s < 0.8 → get_confidence_label s = "moderate") ∧
    (∀ s : ℚ, 0.2 ≤ s → s < 0.5 → get_confidence_label s = "low") ∧
    (∀ s : ℚ, 0 ≤ s → s < 0.2 → get_confidence_label s = "minimal") ∧
    get_confidence_label 1 = "minimal" := by
  refine ⟨?_, ?_, ?_, ?_, ?_⟩
  · intro s h1 h2
    unfold get_confidence_label CONFIDENCE_LEVELS
    rw [find_band_cons h1 (by linarith)]
  · intro s h1 h2
    unfold get_confidence_label CONFIDENCE_LEVELS
    rw [find_band_cons_skip (Or.inl (by linarith)), find_band_cons h1 h2]
  · intro s h1 h2
    unfold get_confidence_label CONFIDENCE_LEVELS
    rw [find_band_cons_skip (Or.inl (by linarith)),
      find_band_cons_skip (Or.inl (by linarith)), find_band_cons h1 h2]
  · intro s h1 h2
    unfold get_confidence_label CONFIDENCE_LEVELS
    rw [find_band_cons_skip (Or.inl (by linarith)),
      find_band_cons_skip (Or.inl (by linarith)),
      find_band_cons_skip (Or.inl (by linarith)),
      find_band_cons (show (0.0 : ℚ) ≤ s by linarith) h2]
  · unfold get_confidence_label CONFIDENCE_LEVELS
    rw [find_band_cons_skip (Or.inr (by norm_num)),
      find_band_cons_skip (Or.inr (by norm_num)),
      find_band_cons_skip (Or.inr (by norm_num)),
      find_band_cons_skip (Or.inr (by norm_num)), List.find?_nil]

/-- Witness for C2 at concrete scores in each band. -/
theorem C2_confidence_label_witness :
    get_confidence_label (9/10) = "high" ∧ get_confidence_label (6/10) = "moderate" ∧
    get_confidence_label (3/10) = "low" ∧ get_confidence_label (1/10) = "minimal" := by
  have h := C2_confidence_label
  exact ⟨h.1 (9/10) (by norm_num) (by norm_num), h.2.1 (6/10) (by norm_num) (by norm_num),
    h.2.2.1 (3/10) (by norm_num) (by norm_num), h.2.2.2.1 (1/10) (by norm_num) (by norm_num)⟩

theorem pyRound_intCast (z : ℤ) (n : ℕ) : pyRound (z : ℚ) n = (z : ℚ) := by
  have he : ((z : ℚ) * 10 ^ n) = ((z * 10 ^ n : ℤ) : ℚ) := by push_cast; ring
  have h1 := floor_le_rhe ((z : ℚ) * 10 ^ n)
  have h2 := rhe_le_ceil ((z : ℚ) * 10 ^ n)
  rw [he, Int.floor_intCast] at h1
  rw [he, Int.ceil_intCast] at h2
  unfold pyRound
  rw [he, le_antisymm h2 h1]
  push_cast
  rw [mul_div_assoc, div_self (by positivity), mul_one]

/-- C1 (Scenario A): criticality `high`, cvss `9.8`, exploit `weaponized`,
published 3 days before now, tag `internet-facing`, active exploitation — the
multiplicative product clamps to `10.0`, severity `critical`, priority
`urgent`. -/
theorem C1_scenarioA (asset : Asset) (vuln : Vulnerability) (tc : ThreatContext)
    (now : ℚ)
    (hcrit : asset.criticality = some "high")
    (htag : "internet-facing" ∈ asset.tags)
    (hcvss : vuln.cvss_score = some (49/5))
    (hexp : vuln.exploit_status = some "weaponized")
    (hpub : vuln.published_date = some (now - 3))
    (hact : tc.active_exploitation = true) :
    (calculate_risk_score asset vuln (some tc) now).risk_score = 10 ∧
    (calculate_risk_score asset vuln (some tc) now).severity = "critical" ∧
    (calculate_risk_score asset vuln (some tc) now).priority = "urgent" := by
  have hF := calculate_risk_score_factors_some asset vuln tc now
  set F := (calculate_risk_score asset vuln (some tc) now).factors with hFdef
  have h1 : F.cvss_score = 49/5 := by rw [hF, hcvss]; rfl
  have h2 : F.asset_criticality_factor = 1.3 := by
    rw [hF, hcrit]
    show ASSET_CRITICALITY (asciiLower "high") = 1.3
    rw [show asciiLower "high" = "high" from by decide]
    unfold ASSET_CRITICALITY
    rw [if_neg (by decide), if_pos rfl]
  have h3 : F.exploit_factor = 2 := by
    rw [hF, hexp]
    show EXPLOIT_AVAILABILITY (asciiLower "weaponized") = 2
    rw [show asciiLower "weaponized" = "weaponized" from by decide]
    unfold EXPLOIT_AVAILABILITY
    rw [if_pos rfl]
  have h4 : F.threat_intel_factor = 2.5 := by
    rw [hF]
    show calculate_threat_factor tc = 2.5
    unfold calculate_threat_factor
    rw [hact, if_pos rfl]
    unfold THREAT_INTEL_WEIGHTS
    rw [if_pos rfl]
  have h5 : F.exposure_factor = 1.5 := by
    rw [hF]
    show calculate_exposure_factor asset = 1.5
    unfold calculate_exposure_factor
    rw [if_pos (Or.inl htag)]
  have h6 : F.age_factor = 1.4 := by
    rw [hF]
    show calculate_age_factor vuln now = 1.4
    unfold calculate_age_factor
    rw [hpub]
    simp only []
    rw [show now - (now - 3) = (3 : ℚ) from by ring]
    norm_num
  have ht : 1 ≤ F.active_targeting_factor := by
    rw [hF]
    exact calculate_targeting_factor_ge_one tc
  have hprod : 10 ≤ F.cvss_score * F.asset_criticality_factor * F.exploit_factor *
      F.threat_intel_factor * F.exposure_factor * F.age_factor *
      F.active_targeting_factor := by
    rw [h1, h2, h3, h4, h5, h6]
    nlinarith [ht]
  have hcfs : compute_final_score F = 10 := by
    unfold compute_final_score
    exact min_eq_right hprod
  refine ⟨?_, ?_, ?_⟩
  · rw [risk_score_eq, ← hFdef, hcfs]
    exact_mod_cast pyRound_intCast 10 2
  · rw [severity_eq, ← hFdef, hcfs]
    unfold get_severity SEVERITY_THRESHOLDS
    norm_num
  · rw [priority_eq, ← hFdef, hcfs]
    unfold calculate_priority
    rw [if_pos (Or.inl (by norm_num))]

/-- Witness for C1 at a concrete asset, vulnerability and threat context. -/
theorem C1_scenarioA_witness :
    (calculate_risk_score sampleAsset sampleVuln (some sampleCtx) 100).risk_score = 10 ∧
    (calculate_risk_score sampleAsset sampleVuln (some sampleCtx) 100).severity = "critical" ∧
    (calculate_risk_score sampleAsset sampleVuln (some sampleCtx) 100).priority = "urgent" :=
  C1_scenarioA sampleAsset sampleVuln sampleCtx 100 rfl (by decide) rfl rfl
    (by rw [show (100 : ℚ) - 3 = 97 from by norm_num]; rfl) rfl

theorem mem_mergeSort_iff {α : Type _} {le : α → α → Bool} {l : List α} {x : α} :
    x ∈ l.mergeSort le ↔ x ∈ l :=
  (List.mergeSort_perm l le).mem_iff

theorem risk_score_bounds (asset : Asset) (vuln : Vulnerability)
    (ctx : Option ThreatContext) (now : ℚ)
    (h0 : 0 ≤ vuln.cvss_score.getD 0) :
    0 ≤ (calculate_risk_score asset vuln ctx now).risk_score ∧
    (calculate_risk_score asset vuln ctx now).risk_score ≤ 10 := by
  obtain ⟨hc, hb1, hb2, hb3, hb4, hb5, hb6⟩ := riskFactors_bounds asset vuln ctx now
  rw [risk_score_eq]
  constructor
  · exact pyRound_nonneg 2 (compute_final_score_nonneg _ (hc ▸ h0) hb1 hb2 hb3 hb4 hb5 hb6)
  · exact pyRound_le_ten 2 (compute_final_score_le_ten _)

theorem assessLoop_mem {asset : Asset} {ctxs : List (Option ThreatContext)} {now : ℚ} :
    ∀ (vulns : List Vulnerability) (idx : ℕ) (r : RiskAssessment),
      r ∈ assessLoop asset ctxs now vulns idx →
      ∃ v ∈ vulns, ∃ c, r = calculate_risk_score asset v c now := by
  intro vulns
  induction vulns with
  | nil => intro idx r hr; cases hr
  | cons v rest ih =>
    intro idx r hr
    rcases List.mem_cons.mp hr with h | h
    · exact ⟨v, List.mem_cons_self v rest, _, h⟩
    · obtain ⟨v2, hv2, c, hc⟩ := ih (idx + 1) r h
      exact ⟨v2, List.mem_cons_of_mem v hv2, c, hc⟩

theorem overallRiskOf_bounds (l : List ℚ) (h : ∀ x ∈ l, 0 ≤ x ∧ x ≤ 10) :
    0 ≤ overallRiskOf l ∧ overallRiskOf l ≤ 10 := by
  unfold overallRiskOf
  have hs : ∀ x ∈ l.mergeSort (fun a b => decide (b ≤ a)), 0 ≤ x ∧ x ≤ 10 :=
    fun x hx => h x (mem_mergeSort_iff.mp hx)
  rcases hms : l.mergeSort (fun a b => decide (b ≤ a)) with _ | ⟨a, _ | ⟨b, _ | ⟨c, rest⟩⟩⟩
  · norm_num
  · have ha := hs a (by rw [hms]; exact List.mem_cons_self _ _)
    simp only []
    exact ⟨ha.1, ha.2⟩
  · have ha := hs a (by rw [hms]; exact List.mem_cons_self _ _)
    have hb := hs b (by rw [hms]; simp)
    simp only []
    constructor <;> [linarith [ha.1, hb.1]; linarith [ha.2, hb.2]]
  · have ha := hs a (by rw [hms]; exact List.mem_cons_self _ _)
    have hb := hs b (by rw [hms]; simp)
    have hc := hs c (by rw [hms]; simp)
    simp only []
    constructor <;>
      [linarith [ha.1, hb.1, hc.1]; linarith [ha.2, hb.2, hc.2]]

theorem sum_bounds_of_forall (l : List ℚ) (h : ∀ x ∈ l, 0 ≤ x ∧ x ≤ 10) :
    0 ≤ l.sum ∧ l.sum ≤ 10 * l.length := by
  induction l with
  | nil => simp
  | cons x rest ih =>
    have hx := h x (List.mem_cons_self _ _)
    have hr := ih (fun y hy => h y (List.mem_cons_of_mem x hy))
    simp only [List.sum_cons, List.length_cons]
    push_cast
    constructor <;> [linarith [hx.1, hr.1]; linarith [hx.2, hr.2]]

/-- C6: with cvss in `[0, 10]`, `calculate_risk_score` returns a risk score in
`[0, 10]`; with such scores, `calculate_asset_risk_profile`'s top-weighted
`overall_risk` and `calculate_organization_risk`'s mean `overall_risk` also
lie in `[0, 10]`. -/
theorem C6_range_invariants :
    (∀ (asset : Asset) (vuln : Vulnerability) (ctx : Option ThreatContext) (now : ℚ),
      0 ≤ vuln.cvss_score.getD 0 → vuln.cvss_score.getD 0 ≤ 10 →
      0 ≤ (calculate_risk_score asset vuln ctx now).risk_score ∧
        (calculate_risk_score asset vuln ctx now).risk_score ≤ 10) ∧
    (∀ (asset : Asset) (vulns : List Vulnerability)
      (ctxs : List (Option ThreatContext)) (now : ℚ),
      (∀ v ∈ vulns, 0 ≤ v.cvss_score.getD 0 ∧ v.cvss_score.getD 0 ≤ 10) →
      0 ≤ (calculate_asset_risk_profile asset vulns ctxs now).overall_risk ∧
        (calculate_asset_risk_profile asset vulns ctxs now).overall_risk ≤ 10) ∧
    (∀ profiles : List AssetRiskProfile,
      (∀ p ∈ profiles, 0 ≤ p.overall_risk ∧ p.overall_risk ≤ 10) →
      0 ≤ (calculate_organization_risk profiles).overall_risk ∧
        (calculate_organization_risk profiles).overall_risk ≤ 10) := by
  refine ⟨?_, ?_, ?_⟩
  · intro asset vuln ctx now h0 _
    exact risk_score_bounds asset vuln ctx now h0
  · intro asset vulns ctxs now hv
    unfold calculate_asset_risk_profile
    split_ifs with he
    · norm_num
    · simp only []
      have hmem : ∀ x ∈ (assessLoop asset ctxs now vulns 0).map (·.risk_score),
          0 ≤ x ∧ x ≤ 10 := by
        intro x hx
        obtain ⟨r, hr, hrx⟩ := List.mem_map.mp hx
        obtain ⟨v, hvm, c, hc⟩ := assessLoop_mem vulns 0 r hr
        have := risk_score_bounds asset v c now (hv v hvm).1
        rw [← hrx, hc]
        exact this
      obtain ⟨hlo, hhi⟩ := overallRiskOf_bounds _ hmem
      exact ⟨pyRound_nonneg 2 hlo, pyRound_le_ten 2 hhi⟩
  · intro profiles hp
    unfold calculate_organization_risk
    split_ifs with he
    · norm_num
    · simp only []
      have hne : profiles ≠ [] := fun h => he (by rw [h]; rfl)
      have hlen : 0 < (profiles.length : ℚ) := by
        have : 0 < profiles.length := List.length_pos.mpr hne
        exact_mod_cast this
      have hmem : ∀ x ∈ profiles.map (·.overall_risk), 0 ≤ x ∧ x ≤ 10 := by
        intro x hx
        obtain ⟨p, hpm, hpx⟩ := List.mem_map.mp hx
        rw [← hpx]
        exact hp p hpm
      obtain ⟨hlo, hhi⟩ := sum_bounds_of_forall _ hmem
      rw [List.length_map] at hhi
      constructor
      · exact pyRound_nonneg 2 (div_nonneg hlo (le_of_lt hlen))
      · apply pyRound_le_ten 2
        rw [div_le_iff₀ hlen]
        linarith

/-- Witness for C6 at concrete inputs for all three aggregation levels. -/
theorem C6_range_invariants_witness :
    (0 ≤ (calculate_risk_score sampleAsset sampleVuln (some sampleCtx) 100).risk_score ∧
      (calculate_risk_score sampleAsset sampleVuln (some sampleCtx) 100).risk_score ≤ 10) ∧
    (0 ≤ (calculate_asset_risk_profile sampleAsset [sampleVuln] [] 100).overall_risk ∧
      (calculate_asset_risk_profile sampleAsset [sampleVuln] [] 100).overall_risk ≤ 10) ∧
    (0 ≤ (calculate_organization_risk []).overall_risk ∧
      (calculate_organization_risk []).overall_risk ≤ 10) := by
  refine ⟨?_, ?_, ?_⟩
  · exact C6_range_invariants.1 sampleAsset sampleVuln (some sampleCtx) 100
      (by norm_num [sampleVuln]) (by norm_num [sampleVuln])
  · refine C6_range_invariants.2.1 sampleAsset [sampleVuln] [] 100 ?_
    intro v hv
    rw [List.mem_singleton.mp hv]
    norm_num [sampleVuln]
  · exact C6_range_invariants.2.2 [] (by simp)

theorem product_mono_exploit {cv cr e1 e2 th ex ag ta : ℚ} (hcv : 0 ≤ cv)
    (hcr : 0 ≤ cr) (hth : 0 ≤ th) (hex : 0 ≤ ex) (hag : 0 ≤ ag) (hta : 0 ≤ ta)
    (he : e1 ≤ e2) :
    cv * cr * e1 * th * ex * ag * ta ≤ cv * cr * e2 * th * ex * ag * ta := by
  have hrest : 0 ≤ cv * cr * (th * (ex * (ag * ta))) :=
    mul_nonneg (mul_nonneg hcv hcr)
      (mul_nonneg hth (mul_nonneg hex (mul_nonneg hag hta)))
  calc cv * cr * e1 * th * ex * ag * ta
      = cv * cr * (th * (ex * (ag * ta))) * e1 := by ring
    _ ≤ cv * cr * (th * (ex * (ag * ta))) * e2 := mul_le_mul_of_nonneg_left he hrest
    _ = cv * cr * e2 * th * ex * ag * ta := by ring

theorem exploit_pairs_le {s t : String}
    (hst : (s = "theoretical" ∧ t = "poc") ∨ (s = "poc" ∧ t = "weaponized") ∨
      (s = "theoretical" ∧ t = "weaponized")) :
    EXPLOIT_AVAILABILITY (asciiLower s) ≤ EXPLOIT_AVAILABILITY (asciiLower t) ∧
    EXPLOIT_DIFFICULTY t ≤ EXPLOIT_DIFFICULTY s := by
  have e1 : asciiLower "theoretical" = "theoretical" := by decide
  have e2 : asciiLower "poc" = "poc" := by decide
  have e3 : asciiLower "weaponized" = "weaponized" := by decide
  rcases hst with ⟨rfl, rfl⟩ | ⟨rfl, rfl⟩ | ⟨rfl, rfl⟩
  · rw [e1, e2]
    constructor <;>
      (simp only [EXPLOIT_AVAILABILITY, EXPLOIT_DIFFICULTY, String.reduceEq, reduceIte]; norm_num)
  · rw [e2, e3]
    constructor <;>
      (simp only [EXPLOIT_AVAILABILITY, EXPLOIT_DIFFICULTY, String.reduceEq, reduceIte]; norm_num)
  · rw [e1, e3]
    constructor <;>
      (simp only [EXPLOIT_AVAILABILITY, EXPLOIT_DIFFICULTY, String.reduceEq, reduceIte]; norm_num)

theorem avgExploitDifficulty_mono (pre post : List Vulnerability)
    (v : Vulnerability) {s t : String}
    (hd : EXPLOIT_DIFFICULTY t ≤ EXPLOIT_DIFFICULTY s) :
    avgExploitDifficulty (pre ++ { v with exploit_status := some t } :: post) ≤
      avgExploitDifficulty (pre ++ { v with exploit_status := some s } :: post) := by
  unfold avgExploitDifficulty
  simp only [List.map_append, List.map_cons, List.sum_append, List.sum_cons,
    List.length_append, List.length_cons]
  try dsimp only []
  try simp only [Option.getD_some]
  have hlen : (0 : ℚ) < (pre.length + (post.length + 1) : ℕ) := by
    push_cast
    positivity
  apply div_le_div_of_nonneg_right _ (le_of_lt hlen)
  linarith [hd]

theorem calculate_likelihood_mono (path : List PathNode) (pre post : List Vulnerability)
    (v : Vulnerability) {s t : String}
    (hd : EXPLOIT_DIFFICULTY t ≤ EXPLOIT_DIFFICULTY s) :
    calculate_likelihood path (pre ++ { v with exploit_status := some s } :: post) ≤
      calculate_likelihood path (pre ++ { v with exploit_status := some t } :: post) := by
  unfold calculate_likelihood
  have hes : (pre ++ { v with exploit_status := some s } :: post).isEmpty = false := by simp
  have het : (pre ++ { v with exploit_status := some t } :: post).isEmpty = false := by simp
  rw [hes, het]
  simp only [Bool.false_eq_true, if_false]
  have havg := avgExploitDifficulty_mono pre post v hd
  have hef : 1 - avgExploitDifficulty (pre ++ { v with exploit_status := some s } :: post) / 10 ≤
      1 - avgExploitDifficulty (pre ++ { v with exploit_status := some t } :: post) / 10 := by
    linarith
  apply max_le_max (le_refl 0)
  apply min_le_min (le_refl 1)
  have hC : (0 : ℚ) ≤ 0.9 * (0.95 : ℚ) ^ (path.length - 1) * assess_security_controls path := by
    unfold assess_security_controls
    positivity
  calc 0.9 * (0.95 : ℚ) ^ (path.length - 1) *
        (1 - avgExploitDifficulty (pre ++ { v with exploit_status := some s } :: post) / 10) *
        assess_security_controls path
      = 0.9 * (0.95 : ℚ) ^ (path.length - 1) * assess_security_controls path *
        (1 - avgExploitDifficulty (pre ++ { v with exploit_status := some s } :: post) / 10) := by
        ring
    _ ≤ 0.9 * (0.95 : ℚ) ^ (path.length - 1) * assess_security_controls path *
        (1 - avgExploitDifficulty (pre ++ { v with exploit_status := some t } :: post) / 10) :=
        mul_le_mul_of_nonneg_left hef hC
    _ = 0.9 * (0.95 : ℚ) ^ (path.length - 1) *
        (1 - avgExploitDifficulty (pre ++ { v with exploit_status := some t } :: post) / 10) *
        assess_security_controls path := by
        ring

/-- C4: holding every other input fixed, moving a vulnerability's
`exploit_status` along theoretical → poc → weaponized never decreases the
risk score of `calculate_risk_score` (for the documented cvss range
`0 ≤ cvss`), and never decreases the likelihood of `analyze_path`. -/
theorem C4_exploit_monotonic :
    (∀ (asset : Asset) (vuln : Vulnerability) (ctx : Option ThreatContext) (now : ℚ)
      (s t : String),
      ((s = "theoretical" ∧ t = "poc") ∨ (s = "poc" ∧ t = "weaponized") ∨
        (s = "theoretical" ∧ t = "weaponized")) →
      0 ≤ vuln.cvss_score.getD 0 →
      (calculate_risk_score asset { vuln with exploit_status := some s } ctx now).risk_score ≤
        (calculate_risk_score asset { vuln with exploit_status := some t } ctx now).risk_score) ∧
    (∀ (path : List PathNode) (pre post : List Vulnerability) (v : Vulnerability)
      (s t : String),
      ((s = "theoretical" ∧ t = "poc") ∨ (s = "poc" ∧ t = "weaponized") ∨
        (s = "theoretical" ∧ t = "weaponized")) →
      likelihoodOf (analyze_path path (pre ++ { v with exploit_status := some s } :: post)) ≤
        likelihoodOf (analyze_path path (pre ++ { v with exploit_status := some t } :: post))) := by
  constructor
  · intro asset vuln ctx now s t hst hcv
    obtain ⟨hEA, _⟩ := exploit_pairs_le hst
    rw [risk_score_eq, risk_score_eq]
    apply pyRound_mono
    have hage_s : calculate_age_factor { vuln with exploit_status := some s } now =
        calculate_age_factor vuln now := rfl
    have hage_t : calculate_age_factor { vuln with exploit_status := some t } now =
        calculate_age_factor vuln now := rfl
    rcases ctx with _ | tc
    · rw [calculate_risk_score_factors_none, calculate_risk_score_factors_none]
      unfold compute_final_score
      apply min_le_min _ (le_refl 10)
      dsimp only []
      rw [hage_s, hage_t]
      simp only [Option.getD_some]
      exact product_mono_exploit hcv (le_of_lt (ASSET_CRITICALITY_pos _)) (by norm_num)
        (by linarith [calculate_exposure_factor_ge_one asset])
        (le_of_lt (calculate_age_factor_pos vuln now)) (by norm_num) hEA
    · rw [calculate_risk_score_factors_some, calculate_risk_score_factors_some]
      unfold compute_final_score
      apply min_le_min _ (le_refl 10)
      dsimp only []
      rw [hage_s, hage_t]
      simp only [Option.getD_some]
      exact product_mono_exploit hcv (le_of_lt (ASSET_CRITICALITY_pos _))
        (by linarith [calculate_threat_factor_ge_one tc])
        (by linarith [calculate_exposure_factor_ge_one asset])
        (le_of_lt (calculate_age_factor_pos vuln now))
        (by linarith [calculate_targeting_factor_ge_one tc]) hEA
  · intro path pre post v s t hst
    obtain ⟨_, hED⟩ := exploit_pairs_le hst
    unfold analyze_path
    split_ifs with h
    · exact le_refl 0
    · unfold likelihoodOf
      dsimp only []
      apply pyRound_mono
      show (calculate_path_metrics path _).likelihood ≤ (calculate_path_metrics path _).likelihood
      unfold calculate_path_metrics
      dsimp only []
      exact calculate_likelihood_mono path pre post v hED

/-- Witness for C4 at a concrete asset, vulnerability, path and status pair. -/
theorem C4_exploit_monotonic_witness :
    ((calculate_risk_score sampleAsset
        { sampleVuln with exploit_status := some "theoretical" } (some sampleCtx) 100).risk_score ≤
      (calculate_risk_score sampleAsset
        { sampleVuln with exploit_status := some "poc" } (some sampleCtx) 100).risk_score) ∧
    (likelihoodOf (analyze_path [sampleNodeA, sampleNodeB]
        ([] ++ { sampleVuln with exploit_status := some "theoretical" } :: [])) ≤
      likelihoodOf (analyze_path [sampleNodeA, sampleNodeB]
        ([] ++ { sampleVuln with exploit_status := some "poc" } :: []))) :=
  ⟨C4_exploit_monotonic.1 sampleAsset sampleVuln (some sampleCtx) 100 "theoretical" "poc"
      (Or.inl ⟨rfl, rfl⟩) (by norm_num [sampleVuln]),
    C4_exploit_monotonic.2 [sampleNodeA, sampleNodeB] [] [] sampleVuln "theoretical" "poc"
      (Or.inl ⟨rfl, rfl⟩)⟩

theorem clearRank_assignRanks {α : Type} (n : ℕ) (l : List (RankedPath α)) :
    (assignRanks n l).map clearRank = l.map clearRank := by
  induction l generalizing n with
  | nil => rfl
  | cons p rest ih =>
    simp only [assignRanks, List.map_cons, ih]
    rfl

theorem ranks_assignRanks {α : Type} (n : ℕ) (l : List (RankedPath α)) :
    (assignRanks n l).map (fun p => p.rank) = (List.range' n l.length).map some := by
  induction l generalizing n with
  | nil => rfl
  | cons p rest ih =>
    simp only [assignRanks, List.map_cons, List.length_cons, List.range', ih]

/-- C10: `rank_attack_paths` returns a permutation of its input — the same
path records, unchanged in every field except `rank`, which is assigned the
contiguous values `1..N` of the descending sort. -/
theorem C10_rank_frame {α : Type} (paths : List (RankedPath α)) :
    ((rank_attack_paths paths).map clearRank).Perm (paths.map clearRank) ∧
    (rank_attack_paths paths).map (fun p => p.rank) =
      (List.range' 1 paths.length).map some := by
  unfold rank_attack_paths
  split_ifs with h
  · rw [List.isEmpty_iff.mp h]
    exact ⟨List.Perm.refl _, rfl⟩
  · constructor
    · rw [clearRank_assignRanks]
      exact (List.mergeSort_perm paths _).map clearRank
    · rw [ranks_assignRanks, List.length_mergeSort]

theorem lookupCount_bumpOcc (m : List (String × ℕ × ℚ)) (k kp : String) (r : ℚ) :
    lookupCount kp (bumpOcc k r m) = lookupCount kp m + (if k = kp then 1 else 0) := by
  induction m with
  | nil =>
    by_cases h : k = kp <;> simp [bumpOcc, lookupCount, h]
  | cons e rest ih =>
    by_cases he : e.1 = k
    · rw [bumpOcc, if_pos he]
      by_cases hp : e.1 = kp
      · have : k = kp := he ▸ hp
        simp [lookupCount, hp, this]
      · have : ¬(k = kp) := fun hk => hp (hk ▸ he)
        simp [lookupCount, hp, this]
    · rw [bumpOcc, if_neg he]
      by_cases hp : e.1 = kp
      · have : ¬(k = kp) := fun hk => he (by rw [hk, ← hp])
        simp [lookupCount, hp, this]
      · simp [lookupCount, hp, ih]

theorem lookupCount_foldl (l : List (String × ℚ)) (m : List (String × ℕ × ℚ))
    (kp : String) :
    lookupCount kp (l.foldl (fun m kv => bumpOcc kv.1 kv.2 m) m) =
      lookupCount kp m + occCount kp l := by
  induction l generalizing m with
  | nil => simp [occCount]
  | cons kv rest ih =>
    simp only [List.foldl_cons, occCount, ih, lookupCount_bumpOcc]
    omega

theorem mapKeys_bumpOcc (m : List (String × ℕ × ℚ)) (k : String) (r : ℚ) :
    mapKeys (bumpOcc k r m) =
      if k ∈ mapKeys m then mapKeys m else mapKeys m ++ [k] := by
  induction m with
  | nil => simp [bumpOcc, mapKeys]
  | cons e rest ih =>
    simp only [mapKeys] at ih ⊢
    by_cases he : e.1 = k
    · rw [bumpOcc, if_pos he, List.map_cons, List.map_cons]
      have hmem : k ∈ e.1 :: List.map (fun e => e.1) rest := by
        rw [← he]
        exact List.mem_cons_self _ _
      rw [if_pos hmem]
    · rw [bumpOcc, if_neg he, List.map_cons, List.map_cons, ih]
      by_cases hm : k ∈ List.map (fun e => e.1) rest
      · rw [if_pos hm, if_pos (List.mem_cons_of_mem e.1 hm)]
      · have hnc : ¬k ∈ e.1 :: List.map (fun e => e.1) rest := by
          intro hc
          rcases List.mem_cons.mp hc with hc | hc
          · exact he hc.symm
          · exact hm hc
        rw [if_neg hm, if_neg hnc, List.cons_append]

theorem nodup_mapKeys_bumpOcc (m : List (String × ℕ × ℚ)) (k : String) (r : ℚ)
    (h : (mapKeys m).Nodup) : (mapKeys (bumpOcc k r m)).Nodup := by
  rw [mapKeys_bumpOcc]
  split_ifs with hk
  · exact h
  · simp only [List.nodup_append, List.nodup_cons, List.not_mem_nil, not_false_iff,
      List.nodup_nil, and_true, true_and]
    exact ⟨h, fun a ha hae => hk (by rwa [List.mem_singleton.mp hae] at ha)⟩

theorem nodup_mapKeys_foldl (l : List (String × ℚ)) (m : List (String × ℕ × ℚ))
    (h : (mapKeys m).Nodup) :
    (mapKeys (l.foldl (fun m kv => bumpOcc kv.1 kv.2 m) m)).Nodup := by
  induction l generalizing m with
  | nil => exact h
  | cons kv rest ih =>
    exact ih _ (nodup_mapKeys_bumpOcc m kv.1 kv.2 h)

theorem lookupCount_of_mem {m : List (String × ℕ × ℚ)} (h : (mapKeys m).Nodup)
    {e : String × ℕ × ℚ} (he : e ∈ m) : lookupCount e.1 m = e.2.1 := by
  induction m with
  | nil => cases he
  | cons hd rest ih =>
    rcases List.mem_cons.mp he with rfl | hmem
    · simp [lookupCount]
    · have hne : ¬hd.1 = e.1 := by
        simp only [mapKeys, List.map_cons, List.nodup_cons] at h
        intro hc
        exact h.1 (hc ▸ List.mem_map_of_mem (fun x => x.1) hmem)
      rw [lookupCount, if_neg hne]
      refine ih ?_ hmem
      simp only [mapKeys, List.map_cons, List.nodup_cons] at h
      exact h.2

/-- C5 (amended): every `node_id` of `identify_critical_nodes` occurs more
than once among the counted node occurrences of the input paths — where a node
id repeated inside a single path contributes once per occurrence, not once per
path. -/
theorem C5_critical_node_occurrences {α : Type} (paths : List (RankedPath α)) :
    ∀ cn ∈ identify_critical_nodes paths, 1 < occCount cn.node_id (allOccs paths) := by
  intro cn hcn
  unfold identify_critical_nodes at hcn
  have hcn2 := mem_mergeSort_iff.mp hcn
  obtain ⟨e, he, hee⟩ := List.mem_filterMap.mp hcn2
  by_cases h1 : e.2.1 > 1
  · rw [if_pos h1] at hee
    have hid : cn.node_id = e.1 := by
      rw [← Option.some.inj hee]
    have hnodup : (mapKeys (nodeMaps paths)).Nodup :=
      nodup_mapKeys_foldl (allOccs paths) [] (by simp [mapKeys])
    have hlk : lookupCount e.1 (nodeMaps paths) = e.2.1 := lookupCount_of_mem hnodup he
    have hocc : lookupCount e.1 (nodeMaps paths) = occCount e.1 (allOccs paths) := by
      unfold nodeMaps
      rw [lookupCount_foldl]
      simp [lookupCount]
    rw [hid, ← hocc, hlk]
    exact h1
  · rw [if_neg h1] at hee
    cases hee

theorem critical_nodes_dup :
    ∃ cn, identify_critical_nodes [dupNodePath] = [cn] ∧ cn.node_id = "a" := by
  have hocc : allOccs [dupNodePath] = [("a", 1), ("a", 1)] := by
    simp [allOccs, pathOccs, pathNodeIds, truthyId, dupNodePath]
  have hmap : nodeMaps [dupNodePath] = [("a", 2, 2)] := by
    unfold nodeMaps
    rw [hocc]
    simp only [List.foldl_cons, List.foldl_nil, bumpOcc]
    norm_num
  unfold identify_critical_nodes
  rw [hmap]
  simp only [List.filterMap_cons, List.filterMap_nil]
  norm_num

/-- C5 counterexample: one analyzed path whose node list repeats the node id
`"a"` — `identify_critical_nodes` returns `"a"` although it appears in exactly
one input path. -/
theorem C5_single_path_counterexample :
    (identify_critical_nodes [dupNodePath]).map (fun cn => cn.node_id) = ["a"] ∧
    [dupNodePath].countP (fun p => decide ("a" ∈ pathNodeIds p)) = 1 := by
  obtain ⟨cn, heq, hid⟩ := critical_nodes_dup
  constructor
  · rw [heq, List.map_singleton, hid]
  · simp [pathNodeIds, truthyId, dupNodePath]

/-- Witness for the amended C5 at the duplicated-node path. -/
theorem C5_critical_node_occurrences_witness :
    1 < occCount "a" (allOccs [dupNodePath]) := by
  obtain ⟨cn, heq, hid⟩ := critical_nodes_dup
  have h := C5_critical_node_occurrences [dupNodePath] cn
    (by rw [heq]; exact List.mem_singleton_self cn)
  rwa [hid] at h

theorem icLoop_acc_sub (temps : List TemporalClusterRef) :
    ∀ (iocs : List IocCorrelation) (acc : List Campaign) (c : Campaign),
      c ∈ acc → c ∈ icLoop temps iocs acc := by
  intro iocs
  induction iocs with
  | nil => intro acc c hc; exact hc
  | cons hd rest ih =>
    intro acc c hc
    unfold icLoop
    by_cases h1 : hd.confidence < 0.7
    · rw [if_pos h1]
      exact ih acc c hc
    · rw [if_neg h1]
      show c ∈ (if ¬(relatedTemporal temps hd).isEmpty = true ∨ hd.occurrence_count > 3 then
        icLoop temps rest (acc ++ [mkCampaign hd (relatedTemporal temps hd) (acc.length + 1)])
        else icLoop temps rest acc)
      by_cases h2 : ¬(relatedTemporal temps hd).isEmpty = true ∨ hd.occurrence_count > 3
      · rw [if_pos h2]
        exact ih _ c (List.mem_append_left _ hc)
      · rw [if_neg h2]
        exact ih acc c hc

theorem icLoop_mem (temps : List TemporalClusterRef) :
    ∀ (iocs : List IocCorrelation) (acc : List Campaign) (ic : IocCorrelation),
      ic ∈ iocs → 0.7 ≤ ic.confidence →
      (relatedTemporal temps ic ≠ [] ∨ 3 < ic.occurrence_count) →
      ∃ c ∈ icLoop temps iocs acc, c.ioc = ic.ioc_value ∧
        c.confidence = min (ic.confidence * 1.1) 1 := by
  intro iocs
  induction iocs with
  | nil => intro acc ic hm; cases hm
  | cons hd rest ih =>
    intro acc ic hm hconf hcond
    rcases List.mem_cons.mp hm with rfl | hmem
    · unfold icLoop
      rw [if_neg (not_lt.mpr hconf)]
      show ∃ c ∈ (if ¬(relatedTemporal temps ic).isEmpty = true ∨ ic.occurrence_count > 3 then
          icLoop temps rest (acc ++ [mkCampaign ic (relatedTemporal temps ic) (acc.length + 1)])
          else icLoop temps rest acc),
        c.ioc = ic.ioc_value ∧ c.confidence = min (ic.confidence * 1.1) 1
      have hcond2 : ¬(relatedTemporal temps ic).isEmpty = true ∨ ic.occurrence_count > 3 := by
        rcases hcond with h | h
        · exact Or.inl (fun hie => h (List.isEmpty_iff.mp hie))
        · exact Or.inr h
      rw [if_pos hcond2]
      refine ⟨mkCampaign ic (relatedTemporal temps ic) (acc.length + 1), ?_, rfl, rfl⟩
      exact icLoop_acc_sub temps rest _ _ (List.mem_append_right _ (List.mem_singleton_self _))
    · unfold icLoop
      by_cases h1 : hd.confidence < 0.7
      · rw [if_pos h1]
        exact ih acc ic hmem hconf hcond
      · rw [if_neg h1]
        show ∃ c ∈ (if ¬(relatedTemporal temps hd).isEmpty = true ∨ hd.occurrence_count > 3 then
            icLoop temps rest (acc ++ [mkCampaign hd (relatedTemporal temps hd) (acc.length + 1)])
            else icLoop temps rest acc),
          c.ioc = ic.ioc_value ∧ c.confidence = min (ic.confidence * 1.1) 1
        by_cases h2 : ¬(relatedTemporal temps hd).isEmpty = true ∨ hd.occurrence_count > 3
        · rw [if_pos h2]
          exact ih _ ic hmem hconf hcond
        · rw [if_neg h2]
          exact ih acc ic hmem hconf hcond

/-- C3 (amended): `identify_campaigns` produces a campaign for every IOC
cluster with confidence at least 0.7 that has a textually related temporal
cluster or occurrence count above 3 (clusters below 0.7 are skipped before
the occurrence-count test); the campaign confidence is the cluster confidence
times 1.1 capped at 1.0, and the output is sorted by confidence descending. -/
theorem C3_campaigns :
    (∀ (iocs : List IocCorrelation) (temps : List TemporalClusterRef)
      (ic : IocCorrelation), ic ∈ iocs → 0.7 ≤ ic.confidence →
      (relatedTemporal temps ic ≠ [] ∨ 3 < ic.occurrence_count) →
      ∃ c ∈ identify_campaigns iocs temps, c.ioc = ic.ioc_value ∧
        c.confidence = min (ic.confidence * 1.1) 1) ∧
    (∀ (iocs : List IocCorrelation) (temps : List TemporalClusterRef),
      ((identify_campaigns iocs temps).map (fun c => c.confidence)).Sorted (· ≥ ·)) := by
  constructor
  · intro iocs temps ic hm hconf hcond
    obtain ⟨c, hc, hioc, hcf⟩ := icLoop_mem temps iocs [] ic hm hconf hcond
    exact ⟨c, mem_mergeSort_iff.mpr hc, hioc, hcf⟩
  · intro iocs temps
    have hs := @List.sorted_mergeSort Campaign
      (fun a b : Campaign => decide (b.confidence ≤ a.confidence))
      (fun a b c h1 h2 => by
        simp only [decide_eq_true_eq] at h1 h2 ⊢
        exact le_trans h2 h1)
      (fun a b => by
        simp only [Bool.or_eq_true, decide_eq_true_eq]
        exact le_total b.confidence a.confidence)
      (icLoop temps iocs [])
    unfold identify_campaigns
    rw [List.Sorted, List.pairwise_map]
    exact hs.imp (fun h => by simpa using h)

/-- C3 counterexample: an IOC cluster with `occurrence_count = 4 > 3` but
confidence `0.5 < 0.7` yields no campaign — the claimed disjunction fails
because the confidence gate is checked first. -/
theorem C3_low_confidence_counterexample :
    identify_campaigns [sampleIoc] [] = [] := by
  unfold identify_campaigns icLoop
  rw [if_pos (show sampleIoc.confidence < 0.7 from by norm_num [sampleIoc]),
    show icLoop [] [] [] = ([] : List Campaign) from rfl]
  exact (List.mergeSort_perm [] _).eq_nil

/-- Witness for the amended C3 at a concrete qualifying IOC cluster. -/
theorem C3_campaigns_witness :
    (∃ c ∈ identify_campaigns
        [{ ioc_value := "evil.example.com", ioc_type := none, occurrence_count := 4,
           confidence := 0.8, threat_actors := [], malware_families := [],
           first_seen := none, last_seen := none }] [],
      c.ioc = "evil.example.com" ∧ c.confidence = min (0.8 * 1.1) 1) ∧
    ((identify_campaigns [sampleIoc] []).map (fun c => c.confidence)).Sorted (· ≥ ·) := by
  constructor
  · exact C3_campaigns.1 _ [] _ (List.mem_singleton_self _) (by norm_num)
      (Or.inr (by norm_num))
  · exact C3_campaigns.2 [sampleIoc] []

theorem sum_const_of_forall (c : ℚ) :
    ∀ xs : List ℚ, (∀ v ∈ xs, v = c) → xs.sum = c * xs.length := by
  intro xs
  induction xs with
  | nil => simp
  | cons x rest ih =>
    intro h
    have hx := h x (List.mem_cons_self _ _)
    have hr := ih (fun v hv => h v (List.mem_cons_of_mem x hv))
    simp only [List.sum_cons, List.length_cons, hx, hr]
    push_cast
    ring

theorem pyMean_const {c : ℚ} {xs : List ℚ} (hne : xs ≠ [])
    (h : ∀ v ∈ xs, v = c) : pyMean xs = c := by
  unfold pyMean
  rw [sum_const_of_forall c xs h]
  have hlen : (xs.length : ℚ) ≠ 0 := by
    have : 0 < xs.length := List.length_pos.mpr hne
    positivity
  field_simp

theorem sampleVariance_const {c : ℚ} {xs : List ℚ} (h : ∀ v ∈ xs, v = c) :
    sampleVariance xs = 0 := by
  unfold sampleVariance
  rcases eq_or_ne xs [] with rfl | hne
  · simp
  · have hmean := pyMean_const hne h
    have hmap : xs.map (fun x => (x - pyMean xs) ^ 2) = xs.map (fun _ => 0) := by
      apply List.map_congr_left
      intro x hx
      rw [h x hx, hmean]
      ring
    rw [hmap]
    simp

theorem anomaly_z_zero_stdev (mean : ℚ) (n : ℕ) : anomaly_z 0 mean n = 0 := by
  unfold anomaly_z
  rw [if_neg (lt_irrefl 0)]

/-- C8: on at least 10 events whose per-day counts are all identical, the zero
standard deviation resolves every z-score to 0 (no division error) and
`detect_anomalies` reports no anomalies. -/
theorem C8_zero_stdev_no_anomalies (sqrtFn : ℚ → ℚ) (events : List PEvent)
    (threshold_std c : ℚ)
    (hsq : sqrtFn 0 = 0) (hth : 0 ≤ threshold_std)
    (hlen : 10 ≤ events.length)
    (_hne : build_timeline events ≠ [])
    (hconst : ∀ p ∈ build_timeline events, (p.2 : ℚ) = c) :
    (∀ p ∈ build_timeline events,
      anomaly_z (detectStdev sqrtFn events) (detectMean events) p.2 = 0) ∧
    detect_anomalies sqrtFn events threshold_std = [] := by
  have hvals : ∀ v ∈ timelineValues events, v = c := by
    intro v hv
    obtain ⟨p, hp, hpv⟩ := List.mem_map.mp hv
    rw [← hpv]
    exact hconst p hp
  have hvar : sampleVariance (timelineValues events) = 0 := sampleVariance_const hvals
  have hstd : detectStdev sqrtFn events = 0 := by
    unfold detectStdev
    split_ifs
    · rw [hvar, hsq]
    · rfl
  constructor
  · intro p _
    rw [hstd]
    exact anomaly_z_zero_stdev _ _
  · simp only [detect_anomalies]
    rw [if_neg (not_lt.mpr hlen)]
    have hnil : ∀ l : List Anomaly, l = [] →
        l.mergeSort (fun a b => decide (|b.z_score| ≤ |a.z_score|)) = [] := by
      intro l h
      rw [h]
      exact (List.mergeSort_perm [] _).eq_nil
    apply hnil
    apply List.filterMap_eq_nil_iff.mpr
    intro p _
    simp only [hstd, anomaly_z_zero_stdev]
    rw [if_neg]
    rw [abs_zero]
    exact not_lt.mpr hth

theorem build_timeline_sample : build_timeline samplePEvents = [("2024-01-01", 10)] := by
  have h : samplePEvents.filterMap dateKeyOf = List.replicate 10 "2024-01-01" := by
    simp [samplePEvents, dateKeyOf, List.replicate]
  unfold build_timeline
  rw [h]
  simp [List.replicate, bumpDay]

/-- Witness for C8: ten events on the same calendar day. -/
theorem C8_zero_stdev_no_anomalies_witness :
    (∀ p ∈ build_timeline samplePEvents,
      anomaly_z (detectStdev (fun _ => 0) samplePEvents)
        (detectMean samplePEvents) p.2 = 0) ∧
    detect_anomalies (fun _ => 0) samplePEvents 2 = [] := by
  apply C8_zero_stdev_no_anomalies (fun _ => 0) samplePEvents 2 10 rfl (by norm_num)
    (by simp [samplePEvents]) (by rw [build_timeline_sample]; simp)
  intro p hp
  rw [build_timeline_sample] at hp
  rw [List.mem_singleton.mp hp]
  norm_num

theorem tcGo_nil (w : ℚ) (clusters : List (List TEvent)) (cur : List TEvent)
    (start : ℚ) :
    tcGo w [] clusters cur start =
      if cur.length > 1 then clusters ++ [cur] else clusters := rfl

theorem tcGo_cons_some (w t : ℚ) (e : TEvent) (es : List TEvent)
    (clusters : List (List TEvent)) (cur : List TEvent) (start : ℚ)
    (hts : e.timestamp = some t) :
    tcGo w (e :: es) clusters cur start =
      if cur.isEmpty then tcGo w es clusters [e] t
      else if t - start ≤ w then tcGo w es clusters (cur ++ [e]) start
      else tcGo w es (if cur.length > 1 then clusters ++ [cur] else clusters) [e] t := by
  simp only [tcGo, hts]

theorem tcGo_within (w : ℚ) :
    ∀ (rest tail : List TEvent) (clusters : List (List TEvent))
      (cur : List TEvent) (start : ℚ),
      cur ≠ [] →
      (∀ r ∈ rest, ∃ tr, r.timestamp = some tr ∧ tr - start ≤ w) →
      tcGo w (rest ++ tail) clusters cur start = tcGo w tail clusters (cur ++ rest) start := by
  intro rest
  induction rest with
  | nil => intro tail clusters cur start _ _; rw [List.nil_append, List.append_nil]
  | cons r rest2 ih =>
    intro tail clusters cur start hcur hall
    obtain ⟨tr, htr, hle⟩ := hall r (List.mem_cons_self _ _)
    rw [List.cons_append, tcGo_cons_some w tr r _ _ _ _ htr]
    rw [if_neg (by simpa [List.isEmpty_iff] using hcur), if_pos hle]
    rw [ih tail clusters (cur ++ [r]) start (by simp)
      (fun x hx => hall x (List.mem_cons_of_mem r hx))]
    rw [← List.append_cons]

theorem sorted_perm_snoc {L K : List TEvent} {x : TEvent}
    (hs : List.Pairwise (fun a b => decide (tkey a ≤ tkey b) = true) L)
    (hp : L.Perm (K ++ [x]))
    (hlt : ∀ y ∈ K, tkey y < tkey x) :
    ∃ M, L = M ++ [x] ∧ M.Perm K := by
  have hxL : x ∈ L := hp.mem_iff.mpr (List.mem_append_right _ (List.mem_singleton_self x))
  obtain ⟨A, B, hAB⟩ := List.append_of_mem hxL
  cases B with
  | nil =>
    refine ⟨A, hAB, ?_⟩
    rw [hAB] at hp
    exact (List.perm_append_right_iff [x]).mp hp
  | cons b B2 =>
    exfalso
    have hxb : tkey x ≤ tkey b := by
      rw [hAB] at hs
      have h1 := (List.pairwise_append.mp hs).2.1
      have h2 := (List.pairwise_cons.mp h1).1 b (List.mem_cons_self _ _)
      simpa using h2
    have hbL : b ∈ L := by
      rw [hAB]
      exact List.mem_append_right _ (List.mem_cons_of_mem x (List.mem_cons_self _ _))
    have hbKx : b ∈ K ++ [x] := hp.mem_iff.mp hbL
    rcases List.mem_append.mp hbKx with hbK | hbx
    · exact absurd hxb (not_le.mpr (hlt b hbK))
    · have hbx2 : b = x := List.mem_singleton.mp hbx
      have hxK : x ∉ K := fun hxK => lt_irrefl _ (hlt x hxK)
      have hcK : List.count x K = 0 := List.count_eq_zero.mpr hxK
      have hcL := hp.count_eq x
      rw [hAB, hbx2, List.count_append, List.count_append, List.count_cons_self,
        List.count_cons_self, List.count_cons_self, List.count_nil, hcK] at hcL
      omega

theorem tkey_eq_coe (e : TEvent) (t : ℚ) (ht : e.timestamp = some t) :
    tkey e = (t : WithBot ℚ) := by
  unfold tkey
  rw [ht]

/-- C7 (Scenario C): five events with parseable timestamps, events 0–3 within
the 24 hours after event 0 and event 4 thirty hours after event 0 —
`temporal_correlation` with a 24-hour window returns exactly one cluster, of
event count 4; event 4 remains a singleton and is dropped. -/
theorem C7_temporal_scenarioC (now tw : ℚ) (e0 e1 e2 e3 e4 : TEvent)
    (t0 t1 t2 t3 t4 : ℚ)
    (h0 : e0.timestamp = some t0) (h1 : e1.timestamp = some t1)
    (h2 : e2.timestamp = some t2) (h3 : e3.timestamp = some t3)
    (h4 : e4.timestamp = some t4)
    (hb1 : t0 ≤ t1) (ha1 : t1 - t0 ≤ 24)
    (hb2 : t0 ≤ t2) (ha2 : t2 - t0 ≤ 24)
    (hb3 : t0 ≤ t3) (ha3 : t3 - t0 ≤ 24)
    (h30 : t4 = t0 + 30) :
    (temporal_correlation now tw [e0, e1, e2, e3, e4] (some 24)).map
      (fun c => c.event_count) = [4] := by
  set L := tsort [e0, e1, e2, e3, e4] with hLdef
  have hperm : L.Perm ([e0, e1, e2, e3] ++ [e4]) := List.mergeSort_perm _ _
  have hsorted : List.Pairwise (fun a b => decide (tkey a ≤ tkey b) = true) L :=
    @List.sorted_mergeSort TEvent (fun a b => decide (tkey a ≤ tkey b))
      (fun a b c hab hbc => by
        simp only [decide_eq_true_eq] at hab hbc ⊢
        exact le_trans hab hbc)
      (fun a b => by
        simp only [Bool.or_eq_true, decide_eq_true_eq]
        exact le_total _ _)
      [e0, e1, e2, e3, e4]
  have hlt : ∀ y ∈ [e0, e1, e2, e3], tkey y < tkey e4 := by
    have hk4 := tkey_eq_coe e4 t4 h4
    intro y hy
    fin_cases hy
    · rw [tkey_eq_coe e0 t0 h0, hk4]
      exact_mod_cast (by linarith : t0 < t4)
    · rw [tkey_eq_coe e1 t1 h1, hk4]
      exact_mod_cast (by linarith : t1 < t4)
    · rw [tkey_eq_coe e2 t2 h2, hk4]
      exact_mod_cast (by linarith : t2 < t4)
    · rw [tkey_eq_coe e3 t3 h3, hk4]
      exact_mod_cast (by linarith : t3 < t4)
  obtain ⟨M, hLM, hMperm⟩ := sorted_perm_snoc hsorted hperm hlt
  have hM4 : M.length = 4 := by
    have := hMperm.length_eq
    simpa using this
  obtain ⟨h, rest, hMcons⟩ :=
    List.exists_cons_of_ne_nil (show M ≠ [] from fun hM => by rw [hM] at hM4; cases hM4)
  have hMts : ∀ y ∈ M, ∃ ty, y.timestamp = some ty ∧ t0 ≤ ty ∧ ty - t0 ≤ 24 := by
    intro y hy
    have hy2 : y ∈ [e0, e1, e2, e3] := hMperm.mem_iff.mp hy
    fin_cases hy2
    · exact ⟨t0, h0, le_refl t0, by linarith⟩
    · exact ⟨t1, h1, hb1, ha1⟩
    · exact ⟨t2, h2, hb2, ha2⟩
    · exact ⟨t3, h3, hb3, ha3⟩
  obtain ⟨th, hth, hth0, hth24⟩ :=
    hMts h (by rw [hMcons]; exact List.mem_cons_self _ _)
  have he0M : e0 ∈ M := hMperm.mem_iff.mpr (List.mem_cons_self _ _)
  have hsortedM : List.Pairwise (fun a b => decide (tkey a ≤ tkey b) = true) M := by
    rw [hLM] at hsorted
    exact (List.pairwise_append.mp hsorted).1
  have hth_t0 : th = t0 := by
    have hle : tkey h ≤ tkey e0 := by
      rw [hMcons] at he0M hsortedM
      rcases List.mem_cons.mp he0M with heq | hmem
      · rw [heq]
      · have := (List.pairwise_cons.mp hsortedM).1 e0 hmem
        simpa using this
    rw [tkey_eq_coe h th hth, tkey_eq_coe e0 t0 h0] at hle
    have hle2 : th ≤ t0 := by exact_mod_cast hle
    linarith
  subst hth_t0
  have hloop : tcGo 24 L [] [] 0 = [h :: rest] := by
    rw [hLM, hMcons, List.cons_append]
    rw [tcGo_cons_some 24 th h _ _ _ _ hth]
    rw [if_pos (show ([] : List TEvent).isEmpty = true from by rfl)]
    rw [tcGo_within 24 rest [e4] [] [h] th (by simp)
      (fun r hr => by
        obtain ⟨tr, htr2, h0r, h24r⟩ :=
          hMts r (by rw [hMcons]; exact List.mem_cons_of_mem h hr)
        exact ⟨tr, htr2, by linarith⟩)]
    rw [List.singleton_append]
    rw [tcGo_cons_some 24 t4 e4 _ _ _ _ h4]
    rw [if_neg (by simp : ¬(h :: rest).isEmpty = true)]
    rw [if_neg (show ¬(t4 - th ≤ 24) from by rw [h30]; intro hc; linarith)]
    rw [if_pos (show (h :: rest).length > 1 from by rw [← hMcons, hM4]; omega)]
    rw [tcGo_nil]
    rw [if_neg (show ¬([e4].length > 1) from by simp)]
    rfl
  have hwin : temporal_correlation now tw [e0, e1, e2, e3, e4] (some 24) =
      buildTemporalClusters now 0 (tcGo 24 L [] [] 0) := by
    show buildTemporalClusters now 0
      (tcGo (if (24 : ℚ) = 0 then tw else 24) L [] [] 0) = _
    rw [if_neg (by norm_num : ¬(24 : ℚ) = 0)]
  rw [hwin, hloop]
  rw [show buildTemporalClusters now 0 [h :: rest] =
    [mkTemporalCluster now 0 (h :: rest)] from rfl]
  rw [List.map_singleton]
  rw [show (mkTemporalCluster now 0 (h :: rest)).event_count = (h :: rest).length from rfl]
  rw [← hMcons, hM4]

/-- Witness for C7 at five concrete events (hours 0, 5, 10, 20 and 30). -/
theorem C7_temporal_scenarioC_witness :
    (temporal_correlation 0 24
      [sampleTEvent 0 "osint", sampleTEvent 5 "osint", sampleTEvent 10 "sigint",
       sampleTEvent 20 "osint", sampleTEvent 30 "cybint"] (some 24)).map
      (fun c => c.event_count) = [4] :=
  C7_temporal_scenarioC 0 24 _ _ _ _ _ 0 5 10 20 30 rfl rfl rfl rfl rfl
    (by norm_num) (by norm_num) (by norm_num) (by norm_num) (by norm_num)
    (by norm_num) (by norm_num)
